import Mathlib

/-!
# C0VM: the bytecode interpreter of `c0vm.c`

A shallow embedding of `execute` (c0vm.c): one iteration of its `while (true)`
dispatch loop is the function `step`, the loop itself is `run`.

* C integers are `Int`, with the conversions to the fixed-width types written
  out (`int32`, `int16`, `int8`, `uint16`).
* The C variables `S`, `P`, `pc`, `V`, `callStack` of `execute` are the fields
  of `State`, together with the heap the `xcalloc` calls of the bytecode
  build up.
* A step ends in `Except.ok` when the C code reaches `break` (the loop goes
  on), and in `Except.error` when `execute` stops: `return`, one of the
  `c0_*_error` calls, a failed `assert`, `abort()`, or behaviour C leaves
  undefined (popping an empty stack, reading a value at the wrong kind,
  indexing outside a buffer).
-/

namespace C0VM

/-! ## Machine integers -/

/-- The constant `INT_MIN` of `<limits.h>` for a 32-bit `int`. -/
def INT_MIN : Int := -2147483648

/-- The constant `INT_MAX` of `<limits.h>` for a 32-bit `int`. -/
def INT_MAX : Int := 2147483647

/-- The integers an `int32_t` can hold. -/
def isInt32 (x : Int) : Prop := INT_MIN ≤ x ∧ x ≤ INT_MAX

instance (x : Int) : Decidable (isInt32 x) := by
  unfold isInt32; infer_instance

/-- Conversion of an integer to the signed type of `w` bits: the value modulo
`2 ^ w`, read as two's complement. -/
def toSigned (w : Nat) (z : Int) : Int :=
  (z + 2 ^ (w - 1)) % 2 ^ w - 2 ^ (w - 1)

/-- Conversion to `int32_t`; it is also the result of 32-bit arithmetic that
wraps around. -/
def int32 (z : Int) : Int := toSigned 32 z

/-- Conversion to `int16_t`. -/
def int16 (z : Int) : Int := toSigned 16 z

/-- Conversion to `int8_t`, and to `char` (a signed 8-bit type on the x86-64
targets the VM is built for). -/
def int8 (z : Int) : Int := toSigned 8 z

/-- Conversion to `uint16_t`. -/
def uint16 (z : Int) : Int := z % 65536

/-- The value of `pc` after `pc += d` on a 64-bit `size_t`. -/
def size_t_add (pc : Nat) (d : Int) : Nat := (((pc : Int) + d) % 2 ^ 64).toNat

/-- The C expression `(P[pc] << 8) | P[pc+1]` on two code bytes, before it is
converted to the type of the variable it is stored in. -/
def bytes2 (hi lo : Nat) : Int := ((Nat.lor (hi <<< 8) lo : Nat) : Int)

/-! ## Values, references and the heap -/

/-- A `void *`: `NULL`, or an address `off` bytes into the allocation number
`block`. Allocation 0 is the string pool of the program. -/
inductive Ptr where
  | null : Ptr
  | addr (block : Nat) (off : Int) : Ptr
  deriving DecidableEq, Repr

/-- Modelled from the spec: the type `c0_value` of lib/c0vm.h is not among the
sources; a Value is a tagged union of a 32-bit signed integer and a reference. -/
inductive c0_value where
  | int (i : Int) : c0_value
  | ptr (p : Ptr) : c0_value
  deriving DecidableEq, Repr

/-- The `c0_value` whose bytes are all zero, as `xcalloc` leaves it: the
integer 0. -/
def zero_value : c0_value := c0_value.int 0

/-- One byte of allocated memory: a plain byte, or byte number `k` of a stored
pointer `p`. -/
inductive Cell where
  | byte (b : Nat) : Cell
  | frag (p : Ptr) (k : Nat) : Cell
  deriving DecidableEq, Repr

/-- Modelled from the spec: the struct `c0_array` of lib/c0vm.h is not among
the sources; an array has an element count (unsigned 32-bit), an element size
(unsigned 8-bit) and a reference to its contiguous storage. One allocation is
either `raw`, a buffer of bytes (`xcalloc(n, size)`), or `array`, such a
`c0_array` header. -/
inductive Block where
  | raw (cells : List Cell) : Block
  | array (count : Nat) (elt_size : Nat) (elems : Ptr) : Block
  deriving DecidableEq, Repr

/-- The allocations made so far, in order; they are never freed. -/
abbrev Heap := List Block

/-- Modelled from the spec: `xcalloc` of lib/xalloc.h is not among the sources;
`xcalloc(nobj, size)` gives a fresh zero-initialized buffer of `nobj * size`
bytes. -/
def xcalloc (H : Heap) (nobj size : Nat) : Ptr × Heap :=
  (Ptr.addr H.length 0, H ++ [Block.raw (List.replicate (nobj * size) (Cell.byte 0))])

/-- The allocation of a `c0_array` header, `xcalloc(sizeof(c0_array), 1)`, with
its three fields assigned. -/
def xcalloc_array (H : Heap) (count elt_size : Nat) (elems : Ptr) : Ptr × Heap :=
  (Ptr.addr H.length 0, H ++ [Block.array count elt_size elems])

/-- The `n` bytes at address `a`, when they lie inside a buffer. -/
def readCells (H : Heap) (a : Ptr) (n : Nat) : Option (List Cell) :=
  match a with
  | Ptr.null => none
  | Ptr.addr b off =>
    match H[b]? with
    | some (Block.raw cells) =>
      if 0 ≤ off ∧ off.toNat + n ≤ cells.length then
        some ((cells.drop off.toNat).take n)
      else none
    | _ => none

/-- The heap after the bytes `cs` are written at address `a`, when they fit
inside a buffer. -/
def writeCells (H : Heap) (a : Ptr) (cs : List Cell) : Option Heap :=
  match a with
  | Ptr.null => none
  | Ptr.addr b off =>
    match H[b]? with
    | some (Block.raw cells) =>
      if 0 ≤ off ∧ off.toNat + cs.length ≤ cells.length then
        some (H.set b (Block.raw
          (cells.take off.toNat ++ cs ++ cells.drop (off.toNat + cs.length))))
      else none
    | _ => none

/-- The four bytes of an `int32_t`, least significant first. -/
def int_cells (x : Int) : List Cell :=
  let u := (x % 4294967296).toNat
  [Cell.byte (u % 256), Cell.byte (u / 256 % 256),
   Cell.byte (u / 65536 % 256), Cell.byte (u / 16777216 % 256)]

/-- The `int32_t` four bytes stand for. -/
def cells_int (cs : List Cell) : Option Int :=
  match cs with
  | [Cell.byte b0, Cell.byte b1, Cell.byte b2, Cell.byte b3] =>
    some (int32 ((b0 + 256 * b1 + 65536 * b2 + 16777216 * b3 : Nat) : Int))
  | _ => none

/-- The eight bytes of a stored `void *`; `NULL` is eight zero bytes. -/
def ptr_cells (p : Ptr) : List Cell :=
  match p with
  | Ptr.null => List.replicate 8 (Cell.byte 0)
  | Ptr.addr b off => (List.range 8).map (Cell.frag (Ptr.addr b off))

/-- The `void *` eight bytes stand for. -/
def cells_ptr (cs : List Cell) : Option Ptr :=
  if cs = List.replicate 8 (Cell.byte 0) then some Ptr.null
  else
    match cs with
    | Cell.frag p 0 :: _ => if cs = ptr_cells p then some p else none
    | _ => none

/-- The header `a` points to, when `a` is the address of a `c0_array`. -/
def readArray (H : Heap) (a : Ptr) : Option (Nat × Nat × Ptr) :=
  match a with
  | Ptr.addr b 0 =>
    match H[b]? with
    | some (Block.array count elt_size elems) => some (count, elt_size, elems)
    | _ => none
  | _ => none

/-- Pointer arithmetic `(char*)a + d`. -/
def Ptr.add (a : Ptr) (d : Int) : Ptr :=
  match a with
  | Ptr.null => Ptr.null
  | Ptr.addr b off => Ptr.addr b (off + d)

/-! ## The program and the machine state -/

/-- Modelled from the spec: `struct function_info` of lib/c0vm.h is not among
the sources; a function-pool entry has a code buffer, a declared argument
count and a declared local-variable count. -/
structure function_info where
  num_args : Nat
  num_vars : Nat
  code : List Nat
  deriving DecidableEq, Repr

/-- Modelled from the spec: `struct native_info` of lib/c0vm.h is not among
the sources; a native-pool entry has a declared argument count and the index
of the function in the external table. -/
structure native_info where
  num_args : Nat
  function_table_index : Nat
  deriving DecidableEq, Repr

/-- Modelled from the spec: `struct bc0_file` of lib/c0vm.h is not among the
sources; a loaded program is its four constant pools. -/
structure bc0_file where
  int_pool : List Int
  string_pool : List Nat
  function_pool : List function_info
  native_pool : List native_info
  deriving DecidableEq, Repr

/-- A native function: it gets the argument buffer (and the heap the
references in it point into) and gives back one value. -/
abbrev native_fn := List c0_value → Heap → c0_value × Heap

/-- The table `native_function_table` of lib/c0vm_c0ffi.h, supplied by the
host: the function at an index, when the table has one there. -/
abbrev native_table := Nat → Option native_fn

/-- A suspended activation, `struct frame_info` of c0vm.c. -/
structure frame_info where
  S : List c0_value
  P : List Nat
  pc : Nat
  V : List c0_value
  deriving DecidableEq, Repr

/-- The variables of `execute`: the operand stack `S` (top first), the code
`P` of the running function, the program counter `pc`, the locals `V`, the
call stack (top first) and the heap; `calls` records every call of a native
function, the latest first, as (table index, argument buffer). -/
structure State where
  S : List c0_value
  P : List Nat
  pc : Nat
  V : List c0_value
  callStack : List frame_info
  H : Heap
  calls : List (Nat × List c0_value)
  deriving DecidableEq, Repr

/-- The failure kinds: the four `c0_*_error` families of lib/c0vm_abort.h, a
failed C `assert`, the `abort()` on an invalid opcode, and an allocation
`xcalloc` cannot serve. -/
inductive ErrorKind where
  | Arithmetic | Memory | User | Assertion | AssertFailed | InvalidOpcode | AllocFailed
  deriving DecidableEq, Repr

/-- The message an error is reported with: a string literal of c0vm.c, or a
reference the bytecode supplied. -/
inductive Msg where
  | lit (s : String) : Msg
  | ref (p : Ptr) : Msg
  deriving DecidableEq, Repr

/-- The ways `execute` stops: `returned v st` is `return val2int(retval)`,
`aborted k m st` is the process terminated by an error of kind `k` raised in
state `st`, `undefined` is behaviour the C code leaves undefined. -/
inductive Halt where
  | returned (v : Int) (st : State) : Halt
  | aborted (k : ErrorKind) (m : Msg) (st : State) : Halt
  | undefined : Halt
  deriving DecidableEq, Repr

/-- Modelled from the spec: `c0_arith_error` of lib/c0vm_abort.h is not among
the sources; a raised error immediately halts the interpreter and terminates
the process, so the call does not return. -/
def c0_arith_error (err : String) (st : State) : Except Halt α :=
  Except.error (Halt.aborted ErrorKind.Arithmetic (Msg.lit err) st)

/-- Modelled from the spec: `c0_memory_error` of lib/c0vm_abort.h is not among
the sources; a raised error immediately halts the interpreter and terminates
the process, so the call does not return. -/
def c0_memory_error (err : String) (st : State) : Except Halt α :=
  Except.error (Halt.aborted ErrorKind.Memory (Msg.lit err) st)

/-- Modelled from the spec: `c0_user_error` of lib/c0vm_abort.h is not among
the sources; a raised error immediately halts the interpreter and terminates
the process, so the call does not return. -/
def c0_user_error (err : Msg) (st : State) : Except Halt α :=
  Except.error (Halt.aborted ErrorKind.User err st)

/-- Modelled from the spec: `c0_assertion_failure` of lib/c0vm_abort.h is not
among the sources; a raised error immediately halts the interpreter and
terminates the process, so the call does not return. -/
def c0_assertion_failure (err : Ptr) (st : State) : Except Halt α :=
  Except.error (Halt.aborted ErrorKind.Assertion (Msg.ref err) st)

/-! ## The operand stack (lib/c0v_stack.h) and value conversions -/

/-- Modelled from the spec: `int2val` of lib/c0vm.h is not among the sources. -/
def int2val (i : Int) : c0_value := c0_value.int i

/-- Modelled from the spec: `ptr2val` of lib/c0vm.h is not among the sources. -/
def ptr2val (p : Ptr) : c0_value := c0_value.ptr p

/-- Modelled from the spec: `val2int` of lib/c0vm.h is not among the sources;
it is defined on the integer values only. -/
def val2int (v : c0_value) : Except Halt Int :=
  match v with
  | c0_value.int i => Except.ok i
  | c0_value.ptr _ => Except.error Halt.undefined

/-- Modelled from the spec: `val2ptr` of lib/c0vm.h is not among the sources;
it is defined on the references only. -/
def val2ptr (v : c0_value) : Except Halt Ptr :=
  match v with
  | c0_value.ptr p => Except.ok p
  | c0_value.int _ => Except.error Halt.undefined

/-- Modelled from the spec: `val_equal` of lib/c0vm.h is not among the
sources; two integers are equal iff numerically equal, two references iff
they denote the same location or are both null, and the comparison of an
integer with a reference is not defined. -/
def val_equal (v1 v2 : c0_value) : Except Halt Bool :=
  match v1, v2 with
  | c0_value.int i, c0_value.int j => Except.ok (decide (i = j))
  | c0_value.ptr p, c0_value.ptr q => Except.ok (decide (p = q))
  | _, _ => Except.error Halt.undefined

/-- Modelled from the spec: `c0v_push` of lib/c0v_stack.h is not among the
sources; the operand stack is a LIFO sequence of values. -/
def c0v_push (S : List c0_value) (v : c0_value) : List c0_value := v :: S

/-- Modelled from the spec: `c0v_pop` of lib/c0v_stack.h is not among the
sources; it gives the top value and the stack without it, and is defined on
the non-empty stacks only. -/
def c0v_pop (S : List c0_value) : Except Halt (c0_value × List c0_value) :=
  match S with
  | [] => Except.error Halt.undefined
  | v :: S' => Except.ok (v, S')

/-- Modelled from the spec: `c0v_stack_empty` of lib/c0v_stack.h is not among
the sources. -/
def c0v_stack_empty (S : List c0_value) : Bool := S.isEmpty

/-- The function `push_int` of c0vm.c. -/
def push_int (S : List c0_value) (i : Int) : List c0_value := c0v_push S (int2val i)

/-- The function `push_ptr` of c0vm.c. -/
def push_ptr (S : List c0_value) (a : Ptr) : List c0_value := c0v_push S (ptr2val a)

/-- The function `pop_int` of c0vm.c. -/
def pop_int (S : List c0_value) : Except Halt (Int × List c0_value) :=
  match c0v_pop S with
  | Except.ok (v, S') =>
    match val2int v with
    | Except.ok i => Except.ok (i, S')
    | Except.error e => Except.error e
  | Except.error e => Except.error e

/-- The function `pop_ptr` of c0vm.c. -/
def pop_ptr (S : List c0_value) : Except Halt (Ptr × List c0_value) :=
  match c0v_pop S with
  | Except.ok (v, S') =>
    match val2ptr v with
    | Except.ok p => Except.ok (p, S')
    | Except.error e => Except.error e
  | Except.error e => Except.error e

/-- The code byte `P[pc]`; reading outside the code buffer is undefined. -/
def fetch (P : List Nat) (pc : Nat) : Except Halt Nat :=
  match P[pc]? with
  | some b => Except.ok b
  | none => Except.error Halt.undefined

/-! ## Opcodes

The enumeration of opcodes is in lib/c0vm.h, which is not among the sources,
and the spec names the opcodes without their byte values. The values below
are those of the C0VM instruction set; the theorems use only that they are
pairwise distinct. -/

/-- Modelled from the spec: the opcode `IADD` of lib/c0vm.h, which is not among
the sources. -/
def IADD : Nat := 0x60

/-- Modelled from the spec: the opcode `IAND` of lib/c0vm.h, which is not among
the sources. -/
def IAND : Nat := 0x7E

/-- Modelled from the spec: the opcode `IDIV` of lib/c0vm.h, which is not among
the sources. -/
def IDIV : Nat := 0x6C

/-- Modelled from the spec: the opcode `IMUL` of lib/c0vm.h, which is not among
the sources. -/
def IMUL : Nat := 0x68

/-- Modelled from the spec: the opcode `IOR` of lib/c0vm.h, which is not among
the sources. -/
def IOR : Nat := 0x80

/-- Modelled from the spec: the opcode `IREM` of lib/c0vm.h, which is not among
the sources. -/
def IREM : Nat := 0x70

/-- Modelled from the spec: the opcode `ISHL` of lib/c0vm.h, which is not among
the sources. -/
def ISHL : Nat := 0x78

/-- Modelled from the spec: the opcode `ISHR` of lib/c0vm.h, which is not among
the sources. -/
def ISHR : Nat := 0x7A

/-- Modelled from the spec: the opcode `ISUB` of lib/c0vm.h, which is not among
the sources. -/
def ISUB : Nat := 0x64

/-- Modelled from the spec: the opcode `IXOR` of lib/c0vm.h, which is not among
the sources. -/
def IXOR : Nat := 0x82

/-- Modelled from the spec: the opcode `DUP` of lib/c0vm.h, which is not among
the sources. -/
def DUP : Nat := 0x59

/-- Modelled from the spec: the opcode `POP` of lib/c0vm.h, which is not among
the sources. -/
def POP : Nat := 0x57

/-- Modelled from the spec: the opcode `SWAP` of lib/c0vm.h, which is not among
the sources. -/
def SWAP : Nat := 0x5F

/-- Modelled from the spec: the opcode `NEWARRAY` of lib/c0vm.h, which is not among
the sources. -/
def NEWARRAY : Nat := 0xBC

/-- Modelled from the spec: the opcode `ARRAYLENGTH` of lib/c0vm.h, which is not among
the sources. -/
def ARRAYLENGTH : Nat := 0xBE

/-- Modelled from the spec: the opcode `NEW` of lib/c0vm.h, which is not among
the sources. -/
def NEW : Nat := 0xBB

/-- Modelled from the spec: the opcode `AADDF` of lib/c0vm.h, which is not among
the sources. -/
def AADDF : Nat := 0x62

/-- Modelled from the spec: the opcode `AADDS` of lib/c0vm.h, which is not among
the sources. -/
def AADDS : Nat := 0x63

/-- Modelled from the spec: the opcode `IMLOAD` of lib/c0vm.h, which is not among
the sources. -/
def IMLOAD : Nat := 0x2E

/-- Modelled from the spec: the opcode `AMLOAD` of lib/c0vm.h, which is not among
the sources. -/
def AMLOAD : Nat := 0x2F

/-- Modelled from the spec: the opcode `IMSTORE` of lib/c0vm.h, which is not among
the sources. -/
def IMSTORE : Nat := 0x4E

/-- Modelled from the spec: the opcode `AMSTORE` of lib/c0vm.h, which is not among
the sources. -/
def AMSTORE : Nat := 0x4F

/-- Modelled from the spec: the opcode `CMLOAD` of lib/c0vm.h, which is not among
the sources. -/
def CMLOAD : Nat := 0x34

/-- Modelled from the spec: the opcode `CMSTORE` of lib/c0vm.h, which is not among
the sources. -/
def CMSTORE : Nat := 0x55

/-- Modelled from the spec: the opcode `VLOAD` of lib/c0vm.h, which is not among
the sources. -/
def VLOAD : Nat := 0x15

/-- Modelled from the spec: the opcode `VSTORE` of lib/c0vm.h, which is not among
the sources. -/
def VSTORE : Nat := 0x36

/-- Modelled from the spec: the opcode `ACONST_NULL` of lib/c0vm.h, which is not among
the sources. -/
def ACONST_NULL : Nat := 0x01

/-- Modelled from the spec: the opcode `BIPUSH` of lib/c0vm.h, which is not among
the sources. -/
def BIPUSH : Nat := 0x10

/-- Modelled from the spec: the opcode `ILDC` of lib/c0vm.h, which is not among
the sources. -/
def ILDC : Nat := 0x13

/-- Modelled from the spec: the opcode `ALDC` of lib/c0vm.h, which is not among
the sources. -/
def ALDC : Nat := 0x14

/-- Modelled from the spec: the opcode `NOP` of lib/c0vm.h, which is not among
the sources. -/
def NOP : Nat := 0x00

/-- Modelled from the spec: the opcode `IF_CMPEQ` of lib/c0vm.h, which is not among
the sources. -/
def IF_CMPEQ : Nat := 0x9F

/-- Modelled from the spec: the opcode `IF_CMPNE` of lib/c0vm.h, which is not among
the sources. -/
def IF_CMPNE : Nat := 0xA0

/-- Modelled from the spec: the opcode `IF_ICMPLT` of lib/c0vm.h, which is not among
the sources. -/
def IF_ICMPLT : Nat := 0xA1

/-- Modelled from the spec: the opcode `IF_ICMPGE` of lib/c0vm.h, which is not among
the sources. -/
def IF_ICMPGE : Nat := 0xA2

/-- Modelled from the spec: the opcode `IF_ICMPGT` of lib/c0vm.h, which is not among
the sources. -/
def IF_ICMPGT : Nat := 0xA3

/-- Modelled from the spec: the opcode `IF_ICMPLE` of lib/c0vm.h, which is not among
the sources. -/
def IF_ICMPLE : Nat := 0xA4

/-- Modelled from the spec: the opcode `GOTO` of lib/c0vm.h, which is not among
the sources. -/
def GOTO : Nat := 0xA7

/-- Modelled from the spec: the opcode `ATHROW` of lib/c0vm.h, which is not among
the sources. -/
def ATHROW : Nat := 0xBF

/-- Modelled from the spec: the opcode `ASSERT` of lib/c0vm.h, which is not among
the sources. -/
def ASSERT : Nat := 0xCF

/-- Modelled from the spec: the opcode `INVOKESTATIC` of lib/c0vm.h, which is not among
the sources. -/
def INVOKESTATIC : Nat := 0xB8

/-- Modelled from the spec: the opcode `INVOKENATIVE` of lib/c0vm.h, which is not among
the sources. -/
def INVOKENATIVE : Nat := 0xB7

/-- Modelled from the spec: the opcode `RETURN` of lib/c0vm.h, which is not among
the sources. -/
def RETURN : Nat := 0xB0

/-! ## The interpreter -/

/-- The loop `for (i = 0; i < len; i++) buf[len-1-i] = c0v_pop(S);` of
INVOKESTATIC and INVOKENATIVE with `n` iterations to go (`i = len - n`): the
stack and the buffer it leaves. Writing outside the buffer is undefined. -/
def pop_args (len : Nat) : Nat → List c0_value → List c0_value →
    Except Halt (List c0_value × List c0_value)
  | 0, S, buf => Except.ok (S, buf)
  | n + 1, S, buf =>
    match c0v_pop S with
    | Except.error e => Except.error e
    | Except.ok (v, S') =>
      let i := len - (n + 1)
      if len - 1 - i < buf.length then pop_args len n S' (buf.set (len - 1 - i) v)
      else Except.error Halt.undefined

/-! ### Additional stack operation -/

/-- The case `POP` of the `switch` (c0vm.c line 74). -/
def case_POP (st : State) : Except Halt State := do
  let pc := st.pc + 1
  let (_, S) ← c0v_pop st.S
  pure { st with pc := pc, S := S }

/-- The case `DUP` of the `switch` (c0vm.c line 80). -/
def case_DUP (st : State) : Except Halt State := do
  let pc := st.pc + 1
  let (v, S) ← c0v_pop st.S
  let S := c0v_push S v
  let S := c0v_push S v
  pure { st with pc := pc, S := S }

/-- The case `SWAP` of the `switch` (c0vm.c line 88). -/
def case_SWAP (st : State) : Except Halt State := do
  let pc := st.pc + 1
  let (v2, S) ← c0v_pop st.S
  let (v1, S) ← c0v_pop S
  let S := c0v_push S v2
  let S := c0v_push S v1
  pure { st with pc := pc, S := S }

/-! ### Returning from a function -/

/-- The case `RETURN` of the `switch` (c0vm.c line 100). -/
def case_RETURN (st : State) : Except Halt State := do
  let (retval, S) ← c0v_pop st.S
  /- assert(c0v_stack_empty(S)) -/
  if ¬ c0v_stack_empty S then
    throw (Halt.aborted ErrorKind.AssertFailed (Msg.lit "c0v_stack_empty(S)")
      { st with S := S })
  match st.callStack with
  | new_frame :: callStack =>
    pure { st with
      S := c0v_push new_frame.S retval, P := new_frame.P, pc := new_frame.pc,
      V := new_frame.V, callStack := callStack }
  | [] =>
    let v ← val2int retval
    throw (Halt.returned v { st with S := S })

/-! ### Arithmetic and Logical operations -/

/-- The case `IADD` of the `switch` (c0vm.c line 127). -/
def case_IADD (st : State) : Except Halt State := do
  let pc := st.pc + 1
  let (y, S) ← pop_int st.S
  let (x, S) ← pop_int S
  let res := int32 (x + y)
  pure { st with pc := pc, S := push_int S res }

/-- The case `ISUB` of the `switch` (c0vm.c line 136). -/
def case_ISUB (st : State) : Except Halt State := do
  let pc := st.pc + 1
  let (y, S) ← pop_int st.S
  let (x, S) ← pop_int S
  let res := int32 (x - y)
  pure { st with pc := pc, S := push_int S res }

/-- The case `IMUL` of the `switch` (c0vm.c line 145). -/
def case_IMUL (st : State) : Except Halt State := do
  let pc := st.pc + 1
  let (y, S) ← pop_int st.S
  let (x, S) ← pop_int S
  let res := int32 (x * y)
  pure { st with pc := pc, S := push_int S res }

/-- The case `IDIV` of the `switch` (c0vm.c line 154). -/
def case_IDIV (st : State) : Except Halt State := do
  let pc := st.pc + 1
  let (y, S) ← pop_int st.S
  let (x, S) ← pop_int S
  if y = 0 ∨ (x = INT_MIN ∧ y = -1) then
    c0_arith_error "arithematic error" { st with pc := pc, S := S }
  else
    let res := Int.tdiv x y
    pure { st with pc := pc, S := push_int S res }

/-- The case `IREM` of the `switch` (c0vm.c line 168). -/
def case_IREM (st : State) : Except Halt State := do
  let pc := st.pc + 1
  let (y, S) ← pop_int st.S
  let (x, S) ← pop_int S
  if y = 0 ∨ (x = INT_MIN ∧ y = -1) then
    c0_arith_error "arithematic error" { st with pc := pc, S := S }
  else
    let res := Int.tmod x y
    pure { st with pc := pc, S := push_int S res }

/-- The case `IAND` of the `switch` (c0vm.c line 182). -/
def case_IAND (st : State) : Except Halt State := do
  let pc := st.pc + 1
  let (y, S) ← pop_int st.S
  let (x, S) ← pop_int S
  let res := Int.land x y
  pure { st with pc := pc, S := push_int S res }

/-- The case `IOR` of the `switch` (c0vm.c line 191). -/
def case_IOR (st : State) : Except Halt State := do
  let pc := st.pc + 1
  let (y, S) ← pop_int st.S
  let (x, S) ← pop_int S
  let res := Int.lor x y
  pure { st with pc := pc, S := push_int S res }

/-- The case `IXOR` of the `switch` (c0vm.c line 200). -/
def case_IXOR (st : State) : Except Halt State := do
  let pc := st.pc + 1
  let (y, S) ← pop_int st.S
  let (x, S) ← pop_int S
  let res := Int.xor x y
  pure { st with pc := pc, S := push_int S res }

/-- The case `ISHR` of the `switch` (c0vm.c line 209). -/
def case_ISHR (st : State) : Except Halt State := do
  let pc := st.pc + 1
  let (y, S) ← pop_int st.S
  let (x, S) ← pop_int S
  if y < 0 ∨ y ≥ 32 then
    c0_arith_error "shift error" { st with pc := pc, S := S }
  let res := x >>> y.toNat
  pure { st with pc := pc, S := push_int S res }

/-- The case `ISHL` of the `switch` (c0vm.c line 221). -/
def case_ISHL (st : State) : Except Halt State := do
  let pc := st.pc + 1
  let (y, S) ← pop_int st.S
  let (x, S) ← pop_int S
  if y < 0 ∨ y ≥ 32 then
    c0_arith_error "shift error" { st with pc := pc, S := S }
  let res := int32 (x * 2 ^ y.toNat)
  pure { st with pc := pc, S := push_int S res }

/-! ### Pushing constants -/

/-- The case `BIPUSH` of the `switch` (c0vm.c line 236). -/
def case_BIPUSH (st : State) : Except Halt State := do
  let pc := st.pc + 1
  let b ← fetch st.P pc
  let x := int32 (int8 b)
  let S := push_int st.S x
  pure { st with pc := pc + 1, S := S }

/-- The case `ILDC` of the `switch` (c0vm.c line 244). -/
def case_ILDC (bc0 : bc0_file) (st : State) : Except Halt State := do
  let pc := st.pc + 1
  let hi ← fetch st.P pc
  let lo ← fetch st.P (pc + 1)
  let x := uint16 (bytes2 hi lo)
  match bc0.int_pool[x.toNat]? with
  | none => throw Halt.undefined
  | some n => pure { st with pc := pc + 1 + 1, S := push_int st.S n }

/-- The case `ALDC` of the `switch` (c0vm.c line 254). -/
def case_ALDC (st : State) : Except Halt State := do
  let pc := st.pc + 1
  let hi ← fetch st.P pc
  let pc := pc + 1
  let lo ← fetch st.P pc
  let x := uint16 (Int.lor (uint16 ((hi <<< 8 : Nat) : Int)) (uint16 (lo : Int)))
  /- a = &(bc0->string_pool[x]) -/
  let a := Ptr.addr 0 x
  pure { st with pc := pc + 1, S := push_ptr st.S a }

/-- The case `ACONST_NULL` of the `switch` (c0vm.c line 265). -/
def case_ACONST_NULL (st : State) : Except Halt State := do
  let pc := st.pc + 1
  pure { st with pc := pc, S := push_ptr st.S Ptr.null }

/-! ### Operations on local variables -/

/-- The case `VLOAD` of the `switch` (c0vm.c line 275). -/
def case_VLOAD (st : State) : Except Halt State := do
  let pc := st.pc + 1
  let val ← fetch st.P pc
  match st.V[val]? with
  | none => throw Halt.undefined
  | some v => pure { st with pc := pc + 1, S := c0v_push st.S v }

/-- The case `VSTORE` of the `switch` (c0vm.c line 283). -/
def case_VSTORE (st : State) : Except Halt State := do
  let pc := st.pc + 1
  let (v, S) ← c0v_pop st.S
  let val ← fetch st.P pc
  if val < st.V.length then
    pure { st with pc := pc + 1, S := S, V := st.V.set val v }
  else throw Halt.undefined

/-! ### Assertions and errors -/

/-- The case `ATHROW` of the `switch` (c0vm.c line 295). -/
def case_ATHROW (st : State) : Except Halt State := do
  let pc := st.pc + 1
  let (a, S) ← pop_ptr st.S
  c0_user_error (Msg.ref a) { st with pc := pc, S := S }

/-- The case `ASSERT` of the `switch` (c0vm.c line 302). -/
def case_ASSERT (st : State) : Except Halt State := do
  let pc := st.pc + 1
  let (a, S) ← pop_ptr st.S
  let (x, S) ← pop_int S
  if x = 0 then
    c0_assertion_failure a { st with pc := pc, S := S }
  pure { st with pc := pc, S := S }

/-! ### Control flow operations -/

/-- The case `NOP` of the `switch` (c0vm.c line 313). -/
def case_NOP (st : State) : Except Halt State := do
  pure { st with pc := st.pc + 1 }

/-- The case `IF_CMPEQ` of the `switch` (c0vm.c line 318). -/
def case_IF_CMPEQ (st : State) : Except Halt State := do
  let pc := st.pc + 1
  let (v2, S) ← c0v_pop st.S
  let (v1, S) ← c0v_pop S
  if (← val_equal v1 v2) then
    let hi ← fetch st.P pc
    let lo ← fetch st.P (pc + 1)
    let count := int16 (bytes2 hi lo)
    pure { st with pc := size_t_add pc (count - 1), S := S }
  else
    pure { st with pc := pc + 2, S := S }

/-- The case `IF_CMPNE` of the `switch` (c0vm.c line 331). -/
def case_IF_CMPNE (st : State) : Except Halt State := do
  let pc := st.pc + 1
  let (v2, S) ← c0v_pop st.S
  let (v1, S) ← c0v_pop S
  if ¬ (← val_equal v1 v2) then
    let hi ← fetch st.P pc
    let lo ← fetch st.P (pc + 1)
    let count := int16 (bytes2 hi lo)
    pure { st with pc := size_t_add pc (count - 1), S := S }
  else
    pure { st with pc := pc + 2, S := S }

/-- The case `IF_ICMPLT` of the `switch` (c0vm.c line 344). -/
def case_IF_ICMPLT (st : State) : Except Halt State := do
  let pc := st.pc + 1
  let (y, S) ← pop_int st.S
  let (x, S) ← pop_int S
  if x < y then
    let hi ← fetch st.P pc
    let lo ← fetch st.P (pc + 1)
    let count := int16 (bytes2 hi lo)
    pure { st with pc := size_t_add pc (count - 1), S := S }
  else
    pure { st with pc := pc + 2, S := S }

/-- The case `IF_ICMPGE` of the `switch` (c0vm.c line 357). -/
def case_IF_ICMPGE (st : State) : Except Halt State := do
  let pc := st.pc + 1
  let (y, S) ← pop_int st.S
  let (x, S) ← pop_int S
  if x ≥ y then
    let hi ← fetch st.P pc
    let lo ← fetch st.P (pc + 1)
    let count := int16 (bytes2 hi lo)
    pure { st with pc := size_t_add pc (count - 1), S := S }
  else
    pure { st with pc := pc + 2, S := S }

/-- The case `IF_ICMPGT` of the `switch` (c0vm.c line 370). -/
def case_IF_ICMPGT (st : State) : Except Halt State := do
  let pc := st.pc + 1
  let (y, S) ← pop_int st.S
  let (x, S) ← pop_int S
  if x > y then
    let hi ← fetch st.P pc
    let lo ← fetch st.P (pc + 1)
    let count := int16 (bytes2 hi lo)
    pure { st with pc := size_t_add pc (count - 1), S := S }
  else
    pure { st with pc := pc + 2, S := S }

/-- The case `IF_ICMPLE` of the `switch` (c0vm.c line 383). -/
def case_IF_ICMPLE (st : State) : Except Halt State := do
  let pc := st.pc + 1
  let (y, S) ← pop_int st.S
  let (x, S) ← pop_int S
  if x ≤ y then
    let hi ← fetch st.P pc
    let lo ← fetch st.P (pc + 1)
    let count := int16 (bytes2 hi lo)
    pure { st with pc := size_t_add pc (count - 1), S := S }
  else
    pure { st with pc := pc + 2, S := S }

/-- The case `GOTO` of the `switch` (c0vm.c line 396). -/
def case_GOTO (st : State) : Except Halt State := do
  let pc := st.pc + 1
  let hi ← fetch st.P pc
  let lo ← fetch st.P (pc + 1)
  let count := int16 (bytes2 hi lo)
  pure { st with pc := size_t_add pc (count - 1) }

/-! ### Function call operations -/

/-- The case `INVOKESTATIC` of the `switch` (c0vm.c line 406). -/
def case_INVOKESTATIC (bc0 : bc0_file) (st : State) : Except Halt State := do
  /- The saved frame shares the operand stack `S` with the running code, so
  the pops of the argument loop below show in it. -/
  let new_frame_pc := st.pc + 3
  let pc := st.pc + 1
  let hi ← fetch st.P pc
  let lo ← fetch st.P (pc + 1)
  let count := uint16 (bytes2 hi lo)
  match bc0.function_pool[count.toNat]? with
  | none => throw Halt.undefined
  | some fi =>
    let len := (uint16 fi.num_args).toNat
    let nums := (uint16 fi.num_vars).toNat
    /- V = xcalloc(sizeof(frame), nums): room for at least `nums` zeroed
    values, the slots the callee's declared variables name. -/
    let V := List.replicate nums zero_value
    let (S_caller, V) ← pop_args len len st.S V
    pure { st with
      S := [], P := fi.code, pc := 0, V := V,
      callStack :=
        { S := S_caller, P := st.P, pc := new_frame_pc, V := st.V } :: st.callStack }

/-- The case `INVOKENATIVE` of the `switch` (c0vm.c line 429). -/
def case_INVOKENATIVE (bc0 : bc0_file) (nft : native_table) (st : State) : Except Halt State := do
  let pc := st.pc + 1
  let hi ← fetch st.P pc
  let lo ← fetch st.P (pc + 1)
  let count := uint16 (bytes2 hi lo)
  match bc0.native_pool[count.toNat]? with
  | none => throw Halt.undefined
  | some n_pool =>
    let len := int8 n_pool.num_args
    /- val = xcalloc(sizeof(c0_value), len): a negative `len` is converted
    to a `size_t` of at least 2^64 - 128 objects, which cannot be served. -/
    if len < 0 then
      throw (Halt.aborted ErrorKind.AllocFailed (Msg.lit "allocation failed")
        { st with pc := pc })
    let val := List.replicate len.toNat zero_value
    let (S, val) ← pop_args len.toNat len.toNat st.S val
    let index := n_pool.function_table_index
    match nft index with
    | none => throw Halt.undefined
    | some native =>
      let (result, H) := native val st.H
      pure { st with
        pc := pc + 2, S := c0v_push S result, H := H,
        calls := (index, val) :: st.calls }

/-! ### Memory allocation and access operations -/

/-- The case `NEW` of the `switch` (c0vm.c line 448). -/
def case_NEW (st : State) : Except Halt State := do
  let pc := st.pc + 1
  let count ← fetch st.P pc
  let (a, H) := xcalloc st.H count 1
  pure { st with pc := pc + 1, S := push_ptr st.S a, H := H }

/-- The case `IMLOAD` of the `switch` (c0vm.c line 457). -/
def case_IMLOAD (st : State) : Except Halt State := do
  let pc := st.pc + 1
  let (a, S) ← pop_ptr st.S
  if a = Ptr.null then
    c0_memory_error "memory-related error" { st with pc := pc, S := S }
  match (readCells st.H a 4).bind cells_int with
  | none => throw Halt.undefined
  | some x => pure { st with pc := pc, S := push_int S x }

/-- The case `IMSTORE` of the `switch` (c0vm.c line 466). -/
def case_IMSTORE (st : State) : Except Halt State := do
  let pc := st.pc + 1
  let (x, S) ← pop_int st.S
  let (a, S) ← pop_ptr S
  if a = Ptr.null then
    c0_memory_error "memory-related error" { st with pc := pc, S := S }
  match writeCells st.H a (int_cells x) with
  | none => throw Halt.undefined
  | some H => pure { st with pc := pc, S := S, H := H }

/-- The case `AMLOAD` of the `switch` (c0vm.c line 475). -/
def case_AMLOAD (st : State) : Except Halt State := do
  let pc := st.pc + 1
  let (a, S) ← pop_ptr st.S
  if a = Ptr.null then
    c0_memory_error "memory-related error" { st with pc := pc, S := S }
  match (readCells st.H a 8).bind cells_ptr with
  | none => throw Halt.undefined
  | some p => pure { st with pc := pc, S := push_ptr S p }

/-- The case `AMSTORE` of the `switch` (c0vm.c line 483). -/
def case_AMSTORE (st : State) : Except Halt State := do
  let pc := st.pc + 1
  let (b, S) ← pop_ptr st.S
  let (a, S) ← pop_ptr S
  if a = Ptr.null then
    c0_memory_error "memory-related error" { st with pc := pc, S := S }
  match writeCells st.H a (ptr_cells b) with
  | none => throw Halt.undefined
  | some H => pure { st with pc := pc, S := S, H := H }

/-- The case `CMLOAD` of the `switch` (c0vm.c line 492). -/
def case_CMLOAD (st : State) : Except Halt State := do
  let pc := st.pc + 1
  let (a, S) ← pop_ptr st.S
  if a = Ptr.null then
    c0_memory_error "memory-related error" { st with pc := pc, S := S }
  match readCells st.H a 1 with
  | some [Cell.byte c] =>
    let x := int8 c
    pure { st with pc := pc, S := push_int S x }
  | _ => throw Halt.undefined

/-- The case `CMSTORE` of the `switch` (c0vm.c line 502). -/
def case_CMSTORE (st : State) : Except Halt State := do
  let pc := st.pc + 1
  let (x, S) ← pop_int st.S
  let (a, S) ← pop_ptr S
  if a = Ptr.null then
    c0_memory_error "memory-related error" { st with pc := pc, S := S }
  match writeCells st.H a [Cell.byte (x % 256).toNat] with
  | none => throw Halt.undefined
  | some H => pure { st with pc := pc, S := S, H := H }

/-- The case `AADDF` of the `switch` (c0vm.c line 511). -/
def case_AADDF (st : State) : Except Halt State := do
  let pc := st.pc + 1
  let f ← fetch st.P pc
  let (a, S) ← pop_ptr st.S
  if a = Ptr.null then
    c0_memory_error "memory-related error" { st with pc := pc, S := S }
  pure { st with pc := pc + 1, S := push_ptr S (a.add f) }

/-! ### Array operations -/

/-- The case `NEWARRAY` of the `switch` (c0vm.c line 524). -/
def case_NEWARRAY (st : State) : Except Halt State := do
  let pc := st.pc + 1
  let size ← fetch st.P pc
  let (n, S) ← pop_int st.S
  if n < 0 then
    c0_memory_error "memory-related error" { st with pc := pc, S := S }
  /- the header is allocated first, its storage second -/
  let elems := Ptr.addr (st.H.length + 1) 0
  let (new_arr, H) := xcalloc_array st.H n.toNat size elems
  let (_, H) := xcalloc H n.toNat size
  pure { st with pc := pc + 1, S := push_ptr S new_arr, H := H }

/-- The case `ARRAYLENGTH` of the `switch` (c0vm.c line 538). -/
def case_ARRAYLENGTH (st : State) : Except Halt State := do
  let pc := st.pc + 1
  let (a, S) ← pop_ptr st.S
  if a = Ptr.null then
    c0_memory_error "memory-related error" { st with pc := pc, S := S }
  match readArray st.H a with
  | none => throw Halt.undefined
  | some (count, _, _) =>
    let n := int32 count
    pure { st with pc := pc, S := push_int S n }

/-- The case `AADDS` of the `switch` (c0vm.c line 548). -/
def case_AADDS (st : State) : Except Halt State := do
  let pc := st.pc + 1
  let (i32, S) ← pop_int st.S
  /- char i = pop_int(S) -/
  let i := int8 i32
  let (a, S) ← pop_ptr S
  if a = Ptr.null then
    c0_memory_error "memory-related error" { st with pc := pc, S := S }
  match readArray st.H a with
  | none => throw Halt.undefined
  | some (count, elt_size, elems) =>
    if i > int8 count then
      c0_user_error (Msg.lit "'i' is not valid index") { st with pc := pc, S := S }
    let x := elems.add (elt_size * i)
    pure { st with pc := pc, S := push_ptr S x }

/-- The `default` case of the `switch` (c0vm.c line 574), which the cases of
CHECKTAG, HASTAG, ADDTAG, ADDROF_STATIC, ADDROF_NATIVE and INVOKEDYNAMIC fall
into as well: `abort()`. -/
def case_default (st : State) : Except Halt State := do
  throw (Halt.aborted ErrorKind.InvalidOpcode (Msg.lit "invalid opcode") st)

/-- One iteration of the `while (true)` loop of `execute`: the `switch` on
`P[pc]`, its cases in the order of c0vm.c. Reading the opcode outside the
code buffer is undefined. -/
def step (bc0 : bc0_file) (nft : native_table) (st : State) : Except Halt State :=
  match st.P[st.pc]? with
  | none => Except.error Halt.undefined
  | some op =>
    if op = POP then case_POP st
    else if op = DUP then case_DUP st
    else if op = SWAP then case_SWAP st
    else if op = RETURN then case_RETURN st
    else if op = IADD then case_IADD st
    else if op = ISUB then case_ISUB st
    else if op = IMUL then case_IMUL st
    else if op = IDIV then case_IDIV st
    else if op = IREM then case_IREM st
    else if op = IAND then case_IAND st
    else if op = IOR then case_IOR st
    else if op = IXOR then case_IXOR st
    else if op = ISHR then case_ISHR st
    else if op = ISHL then case_ISHL st
    else if op = BIPUSH then case_BIPUSH st
    else if op = ILDC then case_ILDC bc0 st
    else if op = ALDC then case_ALDC st
    else if op = ACONST_NULL then case_ACONST_NULL st
    else if op = VLOAD then case_VLOAD st
    else if op = VSTORE then case_VSTORE st
    else if op = ATHROW then case_ATHROW st
    else if op = ASSERT then case_ASSERT st
    else if op = NOP then case_NOP st
    else if op = IF_CMPEQ then case_IF_CMPEQ st
    else if op = IF_CMPNE then case_IF_CMPNE st
    else if op = IF_ICMPLT then case_IF_ICMPLT st
    else if op = IF_ICMPGE then case_IF_ICMPGE st
    else if op = IF_ICMPGT then case_IF_ICMPGT st
    else if op = IF_ICMPLE then case_IF_ICMPLE st
    else if op = GOTO then case_GOTO st
    else if op = INVOKESTATIC then case_INVOKESTATIC bc0 st
    else if op = INVOKENATIVE then case_INVOKENATIVE bc0 nft st
    else if op = NEW then case_NEW st
    else if op = IMLOAD then case_IMLOAD st
    else if op = IMSTORE then case_IMSTORE st
    else if op = AMLOAD then case_AMLOAD st
    else if op = AMSTORE then case_AMSTORE st
    else if op = CMLOAD then case_CMLOAD st
    else if op = CMSTORE then case_CMSTORE st
    else if op = AADDF then case_AADDF st
    else if op = NEWARRAY then case_NEWARRAY st
    else if op = ARRAYLENGTH then case_ARRAYLENGTH st
    else if op = AADDS then case_AADDS st
    else case_default st

/-- The state `execute` starts in: function 0 of the pool at `pc = 0`, an
empty operand stack, `num_vars` zeroed locals, an empty call stack; the heap
holds the string pool as allocation 0. -/
def initial_state (bc0 : bc0_file) : Option State :=
  match bc0.function_pool[0]? with
  | none => none
  | some f0 =>
    some {
      S := [], P := f0.code, pc := 0,
      V := List.replicate f0.num_vars zero_value,
      callStack := [],
      H := [Block.raw (bc0.string_pool.map Cell.byte)],
      calls := [] }

/-- The state after `n` iterations of the loop of `execute`, when none of
them stops it. -/
def steps (bc0 : bc0_file) (nft : native_table) : Nat → State → Except Halt State
  | 0, st => Except.ok st
  | n + 1, st =>
    match step bc0 nft st with
    | Except.ok st' => steps bc0 nft n st'
    | Except.error h => Except.error h

/-- The `while (true)` loop of `execute` run for at most `fuel` iterations:
how the run stopped, or `none` when it is still going after `fuel` steps. -/
def run (bc0 : bc0_file) (nft : native_table) : Nat → State → Option Halt
  | 0, _ => none
  | fuel + 1, st =>
    match step bc0 nft st with
    | Except.ok st' => run bc0 nft fuel st'
    | Except.error h => some h

/-- The function `execute` of c0vm.c on a loaded program, for at most `fuel`
instructions. A program without an entry function is outside its contract. -/
def execute (bc0 : bc0_file) (nft : native_table) (fuel : Nat) : Option Halt :=
  match initial_state bc0 with
  | none => some Halt.undefined
  | some st => run bc0 nft fuel st

/-! ## Sample inputs -/

/-- A host without native functions. -/
def no_natives : native_table := fun _ => none

/-- A program with empty pools. -/
def empty_program : bc0_file :=
  { int_pool := [], string_pool := [], function_pool := [], native_pool := [] }

/-- The state that runs the code `P` from its first byte with operand stack
`S` (top first), no locals, an empty call stack and an empty heap. -/
def sample_state (P : List Nat) (S : List c0_value) : State :=
  { S := S, P := P, pc := 0, V := [], callStack := [], H := [], calls := [] }

/-- The call scenario of the spec: the entry function pushes the bytes `a` and
`b` and calls function 1, which multiplies its two arguments. -/
def mul_program (a b : Nat) : bc0_file :=
  { int_pool := [], string_pool := [], native_pool := [],
    function_pool :=
      [{ num_args := 0, num_vars := 0,
         code := [BIPUSH, a, BIPUSH, b, INVOKESTATIC, 0, 1, RETURN] },
       { num_args := 2, num_vars := 2, code := [VLOAD, 0, VLOAD, 1, IMUL, RETURN] }] }

/-- The array scenario of the spec: the entry function creates an array of `n`
elements of `s` bytes and applies AADDS to it with index `i`; `n` and `i` come
from the integer pool. -/
def array_program (n i : Int) (s : Nat) : bc0_file :=
  { int_pool := [n, i], string_pool := [], native_pool := [],
    function_pool :=
      [{ num_args := 0, num_vars := 0,
         code := [ILDC, 0, 0, NEWARRAY, s, ILDC, 0, 1, AADDS, RETURN] }] }

/-- The state of `execute` on `bc0` after `n` instructions. -/
def state_after (bc0 : bc0_file) (nft : native_table) (n : Nat) : Except Halt State :=
  match initial_state bc0 with
  | none => Except.error Halt.undefined
  | some st => steps bc0 nft n st

/-- The bounded loop of the spec's scenario D, with the bound `n` as the
immediate byte at offset 7: `0: BIPUSH 0; 2: VSTORE 0; 4: VLOAD 0;
6: BIPUSH n; 8: IF_ICMPLT +6; 11: GOTO +13; 14: VLOAD 0; 16: BIPUSH 1;
18: IADD; 19: VSTORE 0; 21: GOTO -17; 24: VLOAD 0; 26: RETURN`. -/
def loop_code (n : Nat) : List Nat :=
  [BIPUSH, 0, VSTORE, 0, VLOAD, 0, BIPUSH, n, IF_ICMPLT, 0, 6, GOTO, 0, 13,
   VLOAD, 0, BIPUSH, 1, IADD, VSTORE, 0, GOTO, 0xFF, 0xEF, VLOAD, 0, RETURN]

/-- The one-function program that runs `loop_code n` with one local. -/
def loop_program (n : Nat) : bc0_file :=
  { int_pool := [], string_pool := [], native_pool := [],
    function_pool := [{ num_args := 0, num_vars := 1, code := loop_code n }] }

/-- The number of the first `fuel` iterations of the loop of `execute`,
started in `st`, that run the instruction at address `a`. -/
def visits (bc0 : bc0_file) (nft : native_table) (a : Nat) : Nat → State → Nat
  | 0, _ => 0
  | fuel + 1, st =>
    (if st.pc = a then 1 else 0) +
      match step bc0 nft st with
      | Except.ok st' => visits bc0 nft a fuel st'
      | Except.error _ => 0

/-- The number of times `execute`, run on `bc0` for at most `fuel`
instructions, runs the instruction at address `a`. -/
def execute_visits (bc0 : bc0_file) (nft : native_table) (a fuel : Nat) : Nat :=
  match initial_state bc0 with
  | none => 0
  | some st => visits bc0 nft a fuel st

/-- A host whose native functions all return the number of values in the
argument buffer and leave the heap alone. -/
def count_natives : native_table :=
  fun _ => some (fun args H => (c0_value.int args.length, H))

/-- A program whose entry function calls native 0 of the pool, which declares
`k` arguments and sits at index 0 of the table. -/
def native_program (k : Nat) : bc0_file :=
  { int_pool := [], string_pool := [],
    native_pool := [{ num_args := k, function_table_index := 0 }],
    function_pool := [{ num_args := 0, num_vars := 0, code := [INVOKENATIVE, 0, 0, RETURN] }] }

/-! ## Dispatch: the case the `switch` takes on each opcode -/

theorem step_POP (bc0 : bc0_file) (nft : native_table) (st : State)
    (h : st.P[st.pc]? = some POP) : step bc0 nft st = case_POP st := by
  simp only [step, h]; rfl

theorem step_DUP (bc0 : bc0_file) (nft : native_table) (st : State)
    (h : st.P[st.pc]? = some DUP) : step bc0 nft st = case_DUP st := by
  simp only [step, h]; rfl

theorem step_SWAP (bc0 : bc0_file) (nft : native_table) (st : State)
    (h : st.P[st.pc]? = some SWAP) : step bc0 nft st = case_SWAP st := by
  simp only [step, h]; rfl

theorem step_RETURN (bc0 : bc0_file) (nft : native_table) (st : State)
    (h : st.P[st.pc]? = some RETURN) : step bc0 nft st = case_RETURN st := by
  simp only [step, h]; rfl

theorem step_IDIV (bc0 : bc0_file) (nft : native_table) (st : State)
    (h : st.P[st.pc]? = some IDIV) : step bc0 nft st = case_IDIV st := by
  simp only [step, h]; rfl

theorem step_IREM (bc0 : bc0_file) (nft : native_table) (st : State)
    (h : st.P[st.pc]? = some IREM) : step bc0 nft st = case_IREM st := by
  simp only [step, h]; rfl

theorem step_ISHR (bc0 : bc0_file) (nft : native_table) (st : State)
    (h : st.P[st.pc]? = some ISHR) : step bc0 nft st = case_ISHR st := by
  simp only [step, h]; rfl

theorem step_ISHL (bc0 : bc0_file) (nft : native_table) (st : State)
    (h : st.P[st.pc]? = some ISHL) : step bc0 nft st = case_ISHL st := by
  simp only [step, h]; rfl

theorem step_INVOKESTATIC (bc0 : bc0_file) (nft : native_table) (st : State)
    (h : st.P[st.pc]? = some INVOKESTATIC) : step bc0 nft st = case_INVOKESTATIC bc0 st := by
  simp only [step, h]; rfl

theorem step_IMLOAD (bc0 : bc0_file) (nft : native_table) (st : State)
    (h : st.P[st.pc]? = some IMLOAD) : step bc0 nft st = case_IMLOAD st := by
  simp only [step, h]; rfl

theorem step_IMSTORE (bc0 : bc0_file) (nft : native_table) (st : State)
    (h : st.P[st.pc]? = some IMSTORE) : step bc0 nft st = case_IMSTORE st := by
  simp only [step, h]; rfl

theorem step_AMLOAD (bc0 : bc0_file) (nft : native_table) (st : State)
    (h : st.P[st.pc]? = some AMLOAD) : step bc0 nft st = case_AMLOAD st := by
  simp only [step, h]; rfl

theorem step_AMSTORE (bc0 : bc0_file) (nft : native_table) (st : State)
    (h : st.P[st.pc]? = some AMSTORE) : step bc0 nft st = case_AMSTORE st := by
  simp only [step, h]; rfl

theorem step_CMLOAD (bc0 : bc0_file) (nft : native_table) (st : State)
    (h : st.P[st.pc]? = some CMLOAD) : step bc0 nft st = case_CMLOAD st := by
  simp only [step, h]; rfl

theorem step_CMSTORE (bc0 : bc0_file) (nft : native_table) (st : State)
    (h : st.P[st.pc]? = some CMSTORE) : step bc0 nft st = case_CMSTORE st := by
  simp only [step, h]; rfl

theorem step_AADDF (bc0 : bc0_file) (nft : native_table) (st : State)
    (h : st.P[st.pc]? = some AADDF) : step bc0 nft st = case_AADDF st := by
  simp only [step, h]; rfl

theorem step_ARRAYLENGTH (bc0 : bc0_file) (nft : native_table) (st : State)
    (h : st.P[st.pc]? = some ARRAYLENGTH) : step bc0 nft st = case_ARRAYLENGTH st := by
  simp only [step, h]; rfl

theorem step_AADDS (bc0 : bc0_file) (nft : native_table) (st : State)
    (h : st.P[st.pc]? = some AADDS) : step bc0 nft st = case_AADDS st := by
  simp only [step, h]; rfl

theorem step_VLOAD (bc0 : bc0_file) (nft : native_table) (st : State)
    (h : st.P[st.pc]? = some VLOAD) : step bc0 nft st = case_VLOAD st := by
  simp only [step, h]; rfl

theorem step_VSTORE (bc0 : bc0_file) (nft : native_table) (st : State)
    (h : st.P[st.pc]? = some VSTORE) : step bc0 nft st = case_VSTORE st := by
  simp only [step, h]; rfl

theorem step_BIPUSH (bc0 : bc0_file) (nft : native_table) (st : State)
    (h : st.P[st.pc]? = some BIPUSH) : step bc0 nft st = case_BIPUSH st := by
  simp only [step, h]; rfl

theorem step_ASSERT (bc0 : bc0_file) (nft : native_table) (st : State)
    (h : st.P[st.pc]? = some ASSERT) : step bc0 nft st = case_ASSERT st := by
  simp only [step, h]; rfl

theorem step_IADD (bc0 : bc0_file) (nft : native_table) (st : State)
    (h : st.P[st.pc]? = some IADD) : step bc0 nft st = case_IADD st := by
  simp only [step, h]; rfl

theorem step_ISUB (bc0 : bc0_file) (nft : native_table) (st : State)
    (h : st.P[st.pc]? = some ISUB) : step bc0 nft st = case_ISUB st := by
  simp only [step, h]; rfl

theorem step_IMUL (bc0 : bc0_file) (nft : native_table) (st : State)
    (h : st.P[st.pc]? = some IMUL) : step bc0 nft st = case_IMUL st := by
  simp only [step, h]; rfl

theorem step_GOTO (bc0 : bc0_file) (nft : native_table) (st : State)
    (h : st.P[st.pc]? = some GOTO) : step bc0 nft st = case_GOTO st := by
  simp only [step, h]; rfl

theorem step_IF_CMPEQ (bc0 : bc0_file) (nft : native_table) (st : State)
    (h : st.P[st.pc]? = some IF_CMPEQ) : step bc0 nft st = case_IF_CMPEQ st := by
  simp only [step, h]; rfl

theorem step_IF_CMPNE (bc0 : bc0_file) (nft : native_table) (st : State)
    (h : st.P[st.pc]? = some IF_CMPNE) : step bc0 nft st = case_IF_CMPNE st := by
  simp only [step, h]; rfl

theorem step_IF_ICMPLT (bc0 : bc0_file) (nft : native_table) (st : State)
    (h : st.P[st.pc]? = some IF_ICMPLT) : step bc0 nft st = case_IF_ICMPLT st := by
  simp only [step, h]; rfl

theorem step_IF_ICMPGE (bc0 : bc0_file) (nft : native_table) (st : State)
    (h : st.P[st.pc]? = some IF_ICMPGE) : step bc0 nft st = case_IF_ICMPGE st := by
  simp only [step, h]; rfl

theorem step_IF_ICMPGT (bc0 : bc0_file) (nft : native_table) (st : State)
    (h : st.P[st.pc]? = some IF_ICMPGT) : step bc0 nft st = case_IF_ICMPGT st := by
  simp only [step, h]; rfl

theorem step_IF_ICMPLE (bc0 : bc0_file) (nft : native_table) (st : State)
    (h : st.P[st.pc]? = some IF_ICMPLE) : step bc0 nft st = case_IF_ICMPLE st := by
  simp only [step, h]; rfl

theorem step_INVOKENATIVE (bc0 : bc0_file) (nft : native_table) (st : State)
    (h : st.P[st.pc]? = some INVOKENATIVE) :
    step bc0 nft st = case_INVOKENATIVE bc0 nft st := by
  simp only [step, h]; rfl

theorem step_NEWARRAY (bc0 : bc0_file) (nft : native_table) (st : State)
    (h : st.P[st.pc]? = some NEWARRAY) : step bc0 nft st = case_NEWARRAY st := by
  simp only [step, h]; rfl

theorem step_NEW (bc0 : bc0_file) (nft : native_table) (st : State)
    (h : st.P[st.pc]? = some NEW) : step bc0 nft st = case_NEW st := by
  simp only [step, h]; rfl

/-! ## Arithmetic of the truncated quotient and remainder -/

theorem natAbs_tmod_lt (x y : Int) (hy : y ≠ 0) :
    (Int.tmod x y).natAbs < y.natAbs := by
  have key : ∀ m n : Nat, 0 < n → m % n < n := fun m n h => Nat.mod_lt m h
  cases x <;> cases y <;> simp only [Int.tmod]
  · rename_i m n
    have hn : 0 < n := by
      rcases Nat.eq_zero_or_pos n with h | h
      · exact absurd (by simp [h]) hy
      · exact h
    have := key m n hn
    simp only [Int.ofNat_eq_coe, Int.natAbs_ofNat]
    exact this
  · rename_i m n
    have := key m (n + 1) (Nat.succ_pos n)
    simp only [Int.ofNat_eq_coe, Int.natAbs_ofNat, Int.natAbs_negSucc]
    exact this
  · rename_i m n
    have hn : 0 < n := by
      rcases Nat.eq_zero_or_pos n with h | h
      · exact absurd (by simp [h]) hy
      · exact h
    have := key (m + 1) n hn
    simp only [Int.ofNat_eq_coe, Int.natAbs_neg, Int.natAbs_ofNat]
    exact this
  · rename_i m n
    have := key (m + 1) (n + 1) (Nat.succ_pos n)
    simp only [Int.ofNat_eq_coe, Int.natAbs_neg, Int.natAbs_ofNat, Int.natAbs_negSucc]
    exact this

theorem tmod_sign (x y : Int) :
    (0 ≤ x → 0 ≤ Int.tmod x y) ∧ (x ≤ 0 → Int.tmod x y ≤ 0) := by
  constructor
  · intro h
    exact Int.tmod_nonneg y h
  · intro h
    cases x <;> cases y <;> simp only [Int.tmod]
    · rename_i m n
      have hm : m = 0 := by
        have : (m : Int) ≤ 0 := h
        omega
      subst hm
      simp
    · rename_i m n
      have hm : m = 0 := by
        have : (m : Int) ≤ 0 := h
        omega
      subst hm
      simp
    · simp only [Int.ofNat_eq_coe]; omega
    · simp only [Int.ofNat_eq_coe]; omega

theorem tdiv_isInt32 (x y : Int) (hx : isInt32 x) (hy0 : y ≠ 0)
    (hov : ¬ (x = INT_MIN ∧ y = -1)) : isInt32 (Int.tdiv x y) := by
  unfold isInt32 INT_MIN INT_MAX at *
  have hq : (Int.tdiv x y).natAbs = x.natAbs / y.natAbs := Int.natAbs_tdiv x y
  by_cases h1 : y = 1
  · subst h1
    rw [Int.tdiv_one]
    exact hx
  by_cases h2 : y = -1
  · subst h2
    have : Int.tdiv x (-1) = -x := by
      rw [Int.tdiv_neg, Int.tdiv_one]
    rw [this]
    have hne : x ≠ -2147483648 := fun h => hov ⟨h, rfl⟩
    omega
  · have hy2 : 2 ≤ y.natAbs := by omega
    have hle : x.natAbs / y.natAbs ≤ x.natAbs / 2 := Nat.div_le_div_left hy2 (by decide)
    omega

theorem tmod_isInt32 (x y : Int) (hy : isInt32 y) (hy0 : y ≠ 0) :
    isInt32 (Int.tmod x y) := by
  have h := natAbs_tmod_lt x y hy0
  unfold isInt32 INT_MIN INT_MAX at *
  omega

/-! ## Immediate operands and the argument loop -/

theorem bytes2_eq (hi lo : Nat) (hlo : lo < 256) :
    bytes2 hi lo = ((hi * 256 + lo : Nat) : Int) := by
  unfold bytes2
  congr 1
  have h := Nat.mul_add_lt_is_or (i := 8) (b := lo) (by simpa using hlo) hi
  show (hi <<< 8) ||| lo = hi * 256 + lo
  rw [Nat.shiftLeft_eq, Nat.mul_comm hi (2 ^ 8)]
  exact h.symm

theorem uint16_bytes2 (hi lo : Nat) (hhi : hi < 256) (hlo : lo < 256) :
    (uint16 (bytes2 hi lo)).toNat = hi * 256 + lo := by
  rw [bytes2_eq hi lo hlo]
  unfold uint16
  omega

/-- The argument loop on a stack that holds the `r.length` values `r` on top
(top first) moves them into the first slots of the buffer, deepest first. -/
theorem pop_args_spec (len : Nat) (rest : List c0_value) :
    ∀ (r : List c0_value) (buf : List c0_value), r.length ≤ len → r.length ≤ buf.length →
      pop_args len r.length (r ++ rest) buf =
        Except.ok (rest, r.reverse ++ buf.drop r.length) := by
  intro r
  induction r with
  | nil => intro buf _ _; simp [pop_args]
  | cons v r ih =>
    intro buf hlen hbuf
    simp only [List.length_cons] at hlen hbuf ⊢
    have hidx : len - 1 - (len - (r.length + 1)) = r.length := by omega
    have hlt : r.length < buf.length := by omega
    simp only [pop_args, List.cons_append, c0v_pop, hidx, hlt, if_true]
    rw [ih (buf.set r.length v) (by omega) (by simp; omega)]
    congr 2
    rw [List.reverse_cons, List.append_assoc]
    congr 1
    rw [List.drop_eq_getElem_cons (by simp; omega)]
    simp only [List.getElem_set_self, List.singleton_append]
    rw [List.drop_set_of_lt v buf (Nat.lt_succ_self r.length)]

/-! ## IDIV and IREM -/

/-- C1: on operand stack `[..., x, y]` with 32-bit `x`, `y`, `y ≠ 0` and not
(`x = INT_MIN` and `y = -1`), IDIV pushes `q` and IREM pushes `r`, both 32-bit,
with `q * y + r = x`, `|r| < |y|`, `r` zero or of the sign of `x`, and `q` the
quotient truncated toward zero (`|q|` is `|x| / |y|` rounded down). Here `q`
is `Int.tdiv x y` and `r` is `Int.tmod x y`. -/
theorem idiv_irem_truncate (bc0 : bc0_file) (nft : native_table) (st : State)
    (x y : Int) (rest : List c0_value) (hx : isInt32 x) (hy : isInt32 y)
    (hS : st.S = c0_value.int y :: c0_value.int x :: rest)
    (hy0 : y ≠ 0) (hov : ¬ (x = INT_MIN ∧ y = -1)) :
    (st.P[st.pc]? = some IDIV →
      step bc0 nft st =
        Except.ok { st with pc := st.pc + 1, S := c0_value.int (Int.tdiv x y) :: rest }) ∧
    (st.P[st.pc]? = some IREM →
      step bc0 nft st =
        Except.ok { st with pc := st.pc + 1, S := c0_value.int (Int.tmod x y) :: rest }) ∧
    isInt32 (Int.tdiv x y) ∧ isInt32 (Int.tmod x y) ∧
    Int.tdiv x y * y + Int.tmod x y = x ∧ |Int.tmod x y| < |y| ∧
    (0 ≤ x → 0 ≤ Int.tmod x y) ∧ (x ≤ 0 → Int.tmod x y ≤ 0) ∧
    (Int.tdiv x y).natAbs = x.natAbs / y.natAbs := by
  have hc : ¬ (y = 0 ∨ (x = INT_MIN ∧ y = -1)) := by
    rintro (h | h)
    · exact hy0 h
    · exact hov h
  refine ⟨?_, ?_, tdiv_isInt32 x y hx hy0 hov,
    tmod_isInt32 x y hy hy0, Int.tdiv_add_tmod' x y, ?_, (tmod_sign x y).1,
    (tmod_sign x y).2, Int.natAbs_tdiv x y⟩
  · intro hop
    rw [step_IDIV bc0 nft st hop]
    simp [case_IDIV, hS, c0v_pop, c0v_push, pop_int, val2int, push_int, int2val, bind,
      Except.bind, pure, Except.pure, hc]
  · intro hop
    rw [step_IREM bc0 nft st hop]
    simp [case_IREM, hS, c0v_pop, c0v_push, pop_int, val2int, push_int, int2val, bind,
      Except.bind, pure, Except.pure, hc]
  · have h := natAbs_tmod_lt x y hy0
    rw [Int.abs_eq_natAbs, Int.abs_eq_natAbs]
    exact_mod_cast h

/-- C1 at `x = -7`, `y = 2`: IDIV pushes `-3` and IREM pushes `-1`. -/
theorem idiv_irem_truncate_witness :
    step empty_program no_natives (sample_state [IDIV] [c0_value.int 2, c0_value.int (-7)]) =
      Except.ok { sample_state [IDIV] [c0_value.int (-3)] with pc := 1 } ∧
    step empty_program no_natives (sample_state [IREM] [c0_value.int 2, c0_value.int (-7)]) =
      Except.ok { sample_state [IREM] [c0_value.int (-1)] with pc := 1 } ∧
    (-3 : Int) * 2 + (-1) = -7 :=
  ⟨(idiv_irem_truncate empty_program no_natives
      (sample_state [IDIV] [c0_value.int 2, c0_value.int (-7)]) (-7) 2 []
      (by decide) (by decide) rfl (by decide) (by decide)).1 rfl,
   (idiv_irem_truncate empty_program no_natives
      (sample_state [IREM] [c0_value.int 2, c0_value.int (-7)]) (-7) 2 []
      (by decide) (by decide) rfl (by decide) (by decide)).2.1 rfl,
   by decide⟩

/-- C2: on operand stack `[..., x, y]`, IDIV and IREM end in an Arithmetic
error if and only if `y = 0` or (`x = INT_MIN` and `y = -1`); the error is
raised in the state where `x` and `y` are popped and nothing is pushed, and
`execute` stops there: no further instruction runs. -/
theorem idiv_irem_error_iff (bc0 : bc0_file) (nft : native_table) (st : State)
    (op : Nat) (x y : Int) (rest : List c0_value)
    (hop : st.P[st.pc]? = some op) (hdr : op = IDIV ∨ op = IREM)
    (hS : st.S = c0_value.int y :: c0_value.int x :: rest) :
    ((∃ m st', step bc0 nft st = Except.error (Halt.aborted ErrorKind.Arithmetic m st')) ↔
      (y = 0 ∨ (x = INT_MIN ∧ y = -1))) ∧
    ((y = 0 ∨ (x = INT_MIN ∧ y = -1)) →
      step bc0 nft st =
        Except.error (Halt.aborted ErrorKind.Arithmetic (Msg.lit "arithematic error")
          { st with pc := st.pc + 1, S := rest }) ∧
      ∀ fuel, run bc0 nft (fuel + 1) st =
        some (Halt.aborted ErrorKind.Arithmetic (Msg.lit "arithematic error")
          { st with pc := st.pc + 1, S := rest })) := by
  have herr : (y = 0 ∨ (x = INT_MIN ∧ y = -1)) →
      step bc0 nft st =
        Except.error (Halt.aborted ErrorKind.Arithmetic (Msg.lit "arithematic error")
          { st with pc := st.pc + 1, S := rest }) := by
    intro hc
    rcases hdr with rfl | rfl
    · rw [step_IDIV bc0 nft st hop]
      simp [case_IDIV, hS, c0v_pop, pop_int, val2int, bind, Except.bind, hc, c0_arith_error]
    · rw [step_IREM bc0 nft st hop]
      simp [case_IREM, hS, c0v_pop, pop_int, val2int, bind, Except.bind, hc, c0_arith_error]
  have hok : ¬ (y = 0 ∨ (x = INT_MIN ∧ y = -1)) → ∃ st', step bc0 nft st = Except.ok st' := by
    intro hc
    rcases hdr with rfl | rfl
    · rw [step_IDIV bc0 nft st hop]
      simp [case_IDIV, hS, c0v_pop, pop_int, val2int, bind, Except.bind, pure, Except.pure, hc]
    · rw [step_IREM bc0 nft st hop]
      simp [case_IREM, hS, c0v_pop, pop_int, val2int, bind, Except.bind, pure, Except.pure, hc]
  refine ⟨⟨?_, fun hc => ⟨_, _, herr hc⟩⟩, fun hc => ⟨herr hc, fun fuel => ?_⟩⟩
  · rintro ⟨m, st', h⟩
    by_contra hc
    obtain ⟨st'', h'⟩ := hok hc
    rw [h'] at h
    cases h
  · simp [run, herr hc]

/-- C2 on the spec's scenario `BIPUSH 1; BIPUSH 0; IDIV`, at the IDIV with
operand stack `[1, 0]` (0 on top): `execute` stops with the Arithmetic error,
the operand stack empty. -/
theorem idiv_irem_error_iff_witness :
    run empty_program no_natives 1
        { sample_state [BIPUSH, 1, BIPUSH, 0, IDIV] [c0_value.int 0, c0_value.int 1] with
          pc := 4 } =
      some (Halt.aborted ErrorKind.Arithmetic (Msg.lit "arithematic error")
        { sample_state [BIPUSH, 1, BIPUSH, 0, IDIV] [] with pc := 5 }) :=
  ((idiv_irem_error_iff empty_program no_natives
    { sample_state [BIPUSH, 1, BIPUSH, 0, IDIV] [c0_value.int 0, c0_value.int 1] with
      pc := 4 } IDIV 1 0 [] rfl (Or.inl rfl) rfl).2 (Or.inl rfl)).2 0

/-! ## ISHL and ISHR -/

/-- C3: on operand stack `[..., x, y]`, ISHL and ISHR end in an Arithmetic
error if and only if `y < 0` or `y ≥ 32`; the error is raised in the state
where `x` and `y` are popped and nothing is pushed, and `execute` stops
there: no further instruction runs; for `0 ≤ y < 32` one result replaces `x`
and `y`. -/
theorem ishl_ishr_error_iff (bc0 : bc0_file) (nft : native_table) (st : State)
    (op : Nat) (x y : Int) (rest : List c0_value)
    (hop : st.P[st.pc]? = some op) (hsh : op = ISHL ∨ op = ISHR)
    (hS : st.S = c0_value.int y :: c0_value.int x :: rest) :
    ((∃ m st', step bc0 nft st = Except.error (Halt.aborted ErrorKind.Arithmetic m st')) ↔
      (y < 0 ∨ y ≥ 32)) ∧
    ((y < 0 ∨ y ≥ 32) →
      step bc0 nft st =
        Except.error (Halt.aborted ErrorKind.Arithmetic (Msg.lit "shift error")
          { st with pc := st.pc + 1, S := rest }) ∧
      ∀ fuel, run bc0 nft (fuel + 1) st =
        some (Halt.aborted ErrorKind.Arithmetic (Msg.lit "shift error")
          { st with pc := st.pc + 1, S := rest })) ∧
    ((0 ≤ y ∧ y < 32) →
      ∃ res, step bc0 nft st =
        Except.ok { st with pc := st.pc + 1, S := c0_value.int res :: rest }) := by
  have herr : (y < 0 ∨ y ≥ 32) →
      step bc0 nft st =
        Except.error (Halt.aborted ErrorKind.Arithmetic (Msg.lit "shift error")
          { st with pc := st.pc + 1, S := rest }) := by
    intro hc
    rcases hsh with rfl | rfl
    · rw [step_ISHL bc0 nft st hop]
      simp [case_ISHL, hS, c0v_pop, pop_int, val2int, bind, Except.bind, hc, c0_arith_error]
    · rw [step_ISHR bc0 nft st hop]
      simp [case_ISHR, hS, c0v_pop, pop_int, val2int, bind, Except.bind, hc, c0_arith_error]
  have hok : (0 ≤ y ∧ y < 32) →
      ∃ res, step bc0 nft st =
        Except.ok { st with pc := st.pc + 1, S := c0_value.int res :: rest } := by
    intro hc
    have hn : ¬ (y < 0 ∨ y ≥ 32) := by omega
    rcases hsh with rfl | rfl
    · rw [step_ISHL bc0 nft st hop]
      exact ⟨int32 (x * 2 ^ y.toNat), by
        simp [case_ISHL, hS, c0v_pop, c0v_push, pop_int, val2int, push_int, int2val, bind,
          Except.bind, pure, Except.pure, hn]⟩
    · rw [step_ISHR bc0 nft st hop]
      exact ⟨x >>> y.toNat, by
        simp [case_ISHR, hS, c0v_pop, c0v_push, pop_int, val2int, push_int, int2val, bind,
          Except.bind, pure, Except.pure, hn]⟩
  refine ⟨⟨?_, fun hc => ⟨_, _, herr hc⟩⟩, fun hc => ⟨herr hc, fun fuel => ?_⟩, hok⟩
  · rintro ⟨m, st', h⟩
    by_contra hc
    obtain ⟨res, h'⟩ := hok (by omega)
    rw [h'] at h
    cases h
  · simp [run, herr hc]

/-- C3 at `x = 1`, `y = 32`: ISHL raises the Arithmetic error with an empty
operand stack. -/
theorem ishl_ishr_error_iff_witness :
    step empty_program no_natives (sample_state [ISHL] [c0_value.int 32, c0_value.int 1]) =
      Except.error (Halt.aborted ErrorKind.Arithmetic (Msg.lit "shift error")
        { sample_state [ISHL] [] with pc := 1 }) :=
  ((ishl_ishr_error_iff empty_program no_natives
    (sample_state [ISHL] [c0_value.int 32, c0_value.int 1]) ISHL 1 32 [] rfl (Or.inl rfl)
    rfl).2.1 (Or.inr (by decide))).1

/-! ## RETURN -/

/-- C8: with the operand stack exactly `[v]`, RETURN on a non-empty call
stack with top frame `F` makes `F` the active frame, with `v` pushed on `F.S`,
`pc` the saved one, code and locals those of `F`, and the call stack without
`F`; on an empty call stack `execute` stops and returns the integer `v`. -/
theorem return_resumes_or_exits (bc0 : bc0_file) (nft : native_table) (st : State)
    (v : c0_value) (hop : st.P[st.pc]? = some RETURN) (hS : st.S = [v]) :
    (∀ F cs, st.callStack = F :: cs →
      step bc0 nft st =
        Except.ok { S := v :: F.S, P := F.P, pc := F.pc, V := F.V, callStack := cs,
                    H := st.H, calls := st.calls }) ∧
    (∀ i : Int, st.callStack = [] → v = c0_value.int i →
      step bc0 nft st = Except.error (Halt.returned i { st with S := [] }) ∧
      ∀ fuel, run bc0 nft (fuel + 1) st = some (Halt.returned i { st with S := [] })) := by
  constructor
  · intro F cs hcs
    rw [step_RETURN bc0 nft st hop]
    simp [case_RETURN, hS, hcs, c0v_pop, c0v_push, c0v_stack_empty, bind, Except.bind, pure,
      Except.pure]
  · intro i hcs hv
    have h : step bc0 nft st = Except.error (Halt.returned i { st with S := [] }) := by
      rw [step_RETURN bc0 nft st hop]
      simp [case_RETURN, hS, hcs, hv, c0v_pop, c0v_stack_empty, val2int, bind, Except.bind,
        pure, Except.pure, throw, throwThe, MonadExceptOf.throw]
    refine ⟨h, fun fuel => ?_⟩
    simp [run, h]

/-- C8 on the one-instruction program `RETURN` with operand stack `[42]` and
an empty call stack: `execute` returns 42. -/
theorem return_resumes_or_exits_witness :
    run empty_program no_natives 1 (sample_state [RETURN] [c0_value.int 42]) =
      some (Halt.returned 42 (sample_state [RETURN] [])) :=
  ((return_resumes_or_exits empty_program no_natives
    (sample_state [RETURN] [c0_value.int 42]) (c0_value.int 42) rfl rfl).2 42 rfl rfl).2 0

/-- C9: when RETURN executes with two or more values on the operand stack,
the assertion that the stack is empty after the pop fails: the step aborts,
no caller is resumed and `execute` yields no exit value. -/
theorem return_checks_empty (bc0 : bc0_file) (nft : native_table) (st : State)
    (v w : c0_value) (rest : List c0_value)
    (hop : st.P[st.pc]? = some RETURN) (hS : st.S = v :: w :: rest) :
    step bc0 nft st =
      Except.error (Halt.aborted ErrorKind.AssertFailed (Msg.lit "c0v_stack_empty(S)")
        { st with S := w :: rest }) ∧
    (∀ st', step bc0 nft st ≠ Except.ok st') ∧
    (∀ i st', step bc0 nft st ≠ Except.error (Halt.returned i st')) ∧
    (∀ fuel i st', run bc0 nft fuel st ≠ some (Halt.returned i st')) := by
  have h : step bc0 nft st =
      Except.error (Halt.aborted ErrorKind.AssertFailed (Msg.lit "c0v_stack_empty(S)")
        { st with S := w :: rest }) := by
    rw [step_RETURN bc0 nft st hop]
    simp [case_RETURN, hS, c0v_pop, c0v_stack_empty, bind, Except.bind, throw, throwThe,
      MonadExceptOf.throw]
  refine ⟨h, ?_, ?_, ?_⟩
  · intro st' h'
    rw [h] at h'
    cases h'
  · intro i st' h'
    rw [h] at h'
    cases h'
  · intro fuel i st' h'
    cases fuel with
    | zero => simp [run] at h'
    | succ n => simp [run, h] at h'

/-- C9 on the program `RETURN` with operand stack `[1, 2]`: the step aborts
on the failed assertion. -/
theorem return_checks_empty_witness :
    step empty_program no_natives
        (sample_state [RETURN] [c0_value.int 1, c0_value.int 2]) =
      Except.error (Halt.aborted ErrorKind.AssertFailed (Msg.lit "c0v_stack_empty(S)")
        (sample_state [RETURN] [c0_value.int 2])) :=
  (return_checks_empty empty_program no_natives
    (sample_state [RETURN] [c0_value.int 1, c0_value.int 2]) (c0_value.int 1) (c0_value.int 2)
    [] rfl rfl).1

/-! ## POP, DUP and SWAP -/

/-- C10: POP turns the operand stack `[..., v]` into `[...]`, DUP turns
`[..., v]` into `[..., v, v]`, SWAP turns `[..., a, b]` into `[..., b, a]`;
each moves `pc` one byte on and leaves code, locals, call stack and heap as
they are. -/
theorem pop_dup_swap (bc0 : bc0_file) (nft : native_table) (st : State)
    (v a b : c0_value) (rest : List c0_value) :
    (st.P[st.pc]? = some POP → st.S = v :: rest →
      step bc0 nft st = Except.ok { st with pc := st.pc + 1, S := rest }) ∧
    (st.P[st.pc]? = some DUP → st.S = v :: rest →
      step bc0 nft st = Except.ok { st with pc := st.pc + 1, S := v :: v :: rest }) ∧
    (st.P[st.pc]? = some SWAP → st.S = b :: a :: rest →
      step bc0 nft st = Except.ok { st with pc := st.pc + 1, S := a :: b :: rest }) := by
  refine ⟨?_, ?_, ?_⟩
  · intro hop hS
    rw [step_POP bc0 nft st hop]
    simp [case_POP, hS, c0v_pop, bind, Except.bind, pure, Except.pure]
  · intro hop hS
    rw [step_DUP bc0 nft st hop]
    simp [case_DUP, hS, c0v_pop, c0v_push, bind, Except.bind, pure, Except.pure]
  · intro hop hS
    rw [step_SWAP bc0 nft st hop]
    simp [case_SWAP, hS, c0v_pop, c0v_push, bind, Except.bind, pure, Except.pure]

/-- C10 on the stack `[1, 2]` (2 on top): SWAP leaves `[2, 1]` (1 on top). -/
theorem pop_dup_swap_witness :
    step empty_program no_natives
        (sample_state [SWAP] [c0_value.int 2, c0_value.int 1]) =
      Except.ok { sample_state [SWAP] [c0_value.int 1, c0_value.int 2] with pc := 1 } :=
  (pop_dup_swap empty_program no_natives
    (sample_state [SWAP] [c0_value.int 2, c0_value.int 1]) (c0_value.int 0) (c0_value.int 1)
    (c0_value.int 2) []).2.2 rfl rfl

/-! ## Null references -/

/-- C6: each of IMLOAD, AMLOAD, CMLOAD, ARRAYLENGTH, AADDF (reference on top),
IMSTORE, CMSTORE, AADDS (an integer above the reference) and AMSTORE (a
reference above the reference) ends in a Memory error when the reference it
pops is null. The error is raised in the state reached by the pops alone:
nothing is pushed and the heap is the one before the step. -/
theorem null_reference_memory_error (bc0 : bc0_file) (nft : native_table) (st : State)
    (op : Nat) (rest : List c0_value) (hop : st.P[st.pc]? = some op) :
    ((op = IMLOAD ∨ op = AMLOAD ∨ op = CMLOAD ∨ op = ARRAYLENGTH) →
      st.S = c0_value.ptr Ptr.null :: rest →
      step bc0 nft st =
        Except.error (Halt.aborted ErrorKind.Memory (Msg.lit "memory-related error")
          { st with pc := st.pc + 1, S := rest })) ∧
    (op = AADDF → ∀ f, st.P[st.pc + 1]? = some f →
      st.S = c0_value.ptr Ptr.null :: rest →
      step bc0 nft st =
        Except.error (Halt.aborted ErrorKind.Memory (Msg.lit "memory-related error")
          { st with pc := st.pc + 1, S := rest })) ∧
    ((op = IMSTORE ∨ op = CMSTORE ∨ op = AADDS) → ∀ x : Int,
      st.S = c0_value.int x :: c0_value.ptr Ptr.null :: rest →
      step bc0 nft st =
        Except.error (Halt.aborted ErrorKind.Memory (Msg.lit "memory-related error")
          { st with pc := st.pc + 1, S := rest })) ∧
    (op = AMSTORE → ∀ b : Ptr,
      st.S = c0_value.ptr b :: c0_value.ptr Ptr.null :: rest →
      step bc0 nft st =
        Except.error (Halt.aborted ErrorKind.Memory (Msg.lit "memory-related error")
          { st with pc := st.pc + 1, S := rest })) := by
  refine ⟨?_, ?_, ?_, ?_⟩
  · rintro (rfl | rfl | rfl | rfl) hS
    · rw [step_IMLOAD bc0 nft st hop]
      simp [case_IMLOAD, hS, c0v_pop, pop_ptr, val2ptr, bind, Except.bind, c0_memory_error]
    · rw [step_AMLOAD bc0 nft st hop]
      simp [case_AMLOAD, hS, c0v_pop, pop_ptr, val2ptr, bind, Except.bind, c0_memory_error]
    · rw [step_CMLOAD bc0 nft st hop]
      simp [case_CMLOAD, hS, c0v_pop, pop_ptr, val2ptr, bind, Except.bind, c0_memory_error]
    · rw [step_ARRAYLENGTH bc0 nft st hop]
      simp [case_ARRAYLENGTH, hS, c0v_pop, pop_ptr, val2ptr, bind, Except.bind,
        c0_memory_error]
  · rintro rfl f hf hS
    rw [step_AADDF bc0 nft st hop]
    simp [case_AADDF, hS, hf, fetch, c0v_pop, pop_ptr, val2ptr, bind, Except.bind,
      c0_memory_error]
  · rintro (rfl | rfl | rfl) x hS
    · rw [step_IMSTORE bc0 nft st hop]
      simp [case_IMSTORE, hS, c0v_pop, pop_int, pop_ptr, val2int, val2ptr, bind, Except.bind,
        c0_memory_error]
    · rw [step_CMSTORE bc0 nft st hop]
      simp [case_CMSTORE, hS, c0v_pop, pop_int, pop_ptr, val2int, val2ptr, bind, Except.bind,
        c0_memory_error]
    · rw [step_AADDS bc0 nft st hop]
      simp [case_AADDS, hS, c0v_pop, pop_int, pop_ptr, val2int, val2ptr, bind, Except.bind,
        c0_memory_error]
  · rintro rfl b hS
    rw [step_AMSTORE bc0 nft st hop]
    simp [case_AMSTORE, hS, c0v_pop, pop_ptr, val2ptr, bind, Except.bind, c0_memory_error]

/-- C6 on IMSTORE with operand stack `[null, 7]` (7 on top): the Memory error
is raised with both values popped and the heap untouched. -/
theorem null_reference_memory_error_witness :
    step empty_program no_natives
        (sample_state [IMSTORE] [c0_value.int 7, c0_value.ptr Ptr.null]) =
      Except.error (Halt.aborted ErrorKind.Memory (Msg.lit "memory-related error")
        { sample_state [IMSTORE] [] with pc := 1 }) :=
  (null_reference_memory_error empty_program no_natives
    (sample_state [IMSTORE] [c0_value.int 7, c0_value.ptr Ptr.null]) IMSTORE [] rfl).2.2.1
    (Or.inl rfl) 7 rfl

/-! ## INVOKESTATIC -/

/-- C7: INVOKESTATIC at address `pc` with immediate bytes `hi`, `lo` calls
function `c = hi * 256 + lo` of the pool. When that function declares `k`
arguments and `m ≥ k` variables and the operand stack is `rest` with the
values `a0 ... a(k-1)` on top (`a(k-1)` topmost), the step leaves an empty
operand stack, `pc = 0`, the code of function `c`, and `m` locals: `a0 ...
a(k-1)` followed by zeros. The call stack gets one frame on top: the caller's
code and locals, its operand stack `rest`, and resume address `pc + 3`. -/
theorem invokestatic_frame (bc0 : bc0_file) (nft : native_table) (st : State)
    (hi lo : Nat) (f : function_info) (args rest : List c0_value)
    (hop : st.P[st.pc]? = some INVOKESTATIC)
    (hhi : st.P[st.pc + 1]? = some hi) (hlo : st.P[st.pc + 2]? = some lo)
    (hhi256 : hi < 256) (hlo256 : lo < 256)
    (hf : bc0.function_pool[hi * 256 + lo]? = some f)
    (hk : args.length = f.num_args) (hm : f.num_args ≤ f.num_vars)
    (hm16 : f.num_vars < 65536)
    (hS : st.S = args.reverse ++ rest) :
    step bc0 nft st =
      Except.ok {
        S := [], P := f.code, pc := 0,
        V := args ++ List.replicate (f.num_vars - f.num_args) zero_value,
        callStack := { S := rest, P := st.P, pc := st.pc + 3, V := st.V } :: st.callStack,
        H := st.H, calls := st.calls } := by
  rw [step_INVOKESTATIC bc0 nft st hop]
  have h1 : (uint16 (f.num_args : Int)).toNat = f.num_args := by unfold uint16; omega
  have h2 : (uint16 (f.num_vars : Int)).toNat = f.num_vars := by unfold uint16; omega
  have hp := pop_args_spec f.num_args rest args.reverse
    (List.replicate f.num_vars zero_value) (by simp [hk]) (by simp [hk]; exact hm)
  simp only [List.length_reverse, hk, List.reverse_reverse, List.drop_replicate] at hp
  simp [case_INVOKESTATIC, fetch, hhi, hlo, uint16_bytes2 hi lo hhi256 hlo256, hf, h1, h2,
    hS, hp, bind, Except.bind, pure, Except.pure]

/-- C7 on the call of the spec's scenario: the caller, at its INVOKESTATIC
(address 4) with operand stack `[9, 2, 3]` (3 on top), enters `mulFn` with
locals `[2, 3]`; the saved frame keeps `[9]` and resumes at address 7. -/
theorem invokestatic_frame_witness :
    step (mul_program 2 3) no_natives
        { S := [c0_value.int 3, c0_value.int 2, c0_value.int 9],
          P := [BIPUSH, 2, BIPUSH, 3, INVOKESTATIC, 0, 1, RETURN], pc := 4, V := [],
          callStack := [], H := [], calls := [] } =
      Except.ok {
        S := [], P := [VLOAD, 0, VLOAD, 1, IMUL, RETURN], pc := 0,
        V := [c0_value.int 2, c0_value.int 3],
        callStack :=
          [{ S := [c0_value.int 9], P := [BIPUSH, 2, BIPUSH, 3, INVOKESTATIC, 0, 1, RETURN],
             pc := 7, V := [] }],
        H := [], calls := [] } :=
  invokestatic_frame (mul_program 2 3) no_natives
    { S := [c0_value.int 3, c0_value.int 2, c0_value.int 9],
      P := [BIPUSH, 2, BIPUSH, 3, INVOKESTATIC, 0, 1, RETURN], pc := 4, V := [],
      callStack := [], H := [], calls := [] }
    0 1 { num_args := 2, num_vars := 2, code := [VLOAD, 0, VLOAD, 1, IMUL, RETURN] }
    [c0_value.int 2, c0_value.int 3] [c0_value.int 9]
    rfl rfl rfl (by decide) (by decide) rfl rfl (by decide) (by decide) rfl

/-! ## AADDS -/

/-- What AADDS does on a reference to an array header `(count, elt_size,
elems)` with the integer `i` above it: both operands are converted to `char`;
when the index is greater than the count, as `char`s, the User error is
raised, and otherwise the reference `elems + elt_size * (char) i` is pushed. -/
theorem case_AADDS_array (st : State) (i : Int) (a : Ptr) (rest : List c0_value)
    (count elt_size : Nat) (elems : Ptr)
    (hS : st.S = c0_value.int i :: c0_value.ptr a :: rest)
    (ha : readArray st.H a = some (count, elt_size, elems)) :
    case_AADDS st =
      if int8 i > int8 count then
        Except.error (Halt.aborted ErrorKind.User (Msg.lit "'i' is not valid index")
          { st with pc := st.pc + 1, S := rest })
      else
        Except.ok { st with
          pc := st.pc + 1, S := c0_value.ptr (elems.add (elt_size * int8 i)) :: rest } := by
  have hnull : a ≠ Ptr.null := by
    rintro rfl
    simp [readArray] at ha
  by_cases hc : int8 i > int8 count
  · simp [case_AADDS, hS, ha, hnull, hc, c0v_pop, pop_int, pop_ptr, val2int, val2ptr, bind,
      Except.bind, pure, Except.pure, c0_user_error]
  · simp [case_AADDS, hS, ha, hnull, hc, c0v_pop, c0v_push, pop_int, pop_ptr, val2int, val2ptr,
      push_ptr, ptr2val, bind, Except.bind, pure, Except.pure]

/-- On an array of at most 127 elements the conversions to `char` change
nothing: AADDS with an index `0 ≤ i < count` raises no error and pushes the
reference to byte offset `elt_size * i` of the storage. -/
theorem case_AADDS_small_array (st : State) (i : Int) (a : Ptr) (rest : List c0_value)
    (count elt_size : Nat) (elems : Ptr)
    (hS : st.S = c0_value.int i :: c0_value.ptr a :: rest)
    (ha : readArray st.H a = some (count, elt_size, elems))
    (hn : count ≤ 127) (hi0 : 0 ≤ i) (hi : i < count) :
    case_AADDS st =
      Except.ok { st with
        pc := st.pc + 1, S := c0_value.ptr (elems.add (elt_size * i)) :: rest } := by
  have h1 : int8 i = i := by
    unfold int8 toSigned
    norm_num
    omega
  have h2 : int8 (count : Int) = count := by
    unfold int8 toSigned
    norm_num
    omega
  rw [case_AADDS_array st i a rest count elt_size elems hS ha, h1, h2]
  simp only [gt_iff_lt]
  rw [if_neg (by omega)]

/-- C4, the code at the failing inputs: on the array NEWARRAY makes for
`n = 5` elements of 4 bytes, AADDS with index 5 raises no error and pushes the
reference to byte offset 20, one past the storage; with index -1 it raises no
error either and pushes the reference to byte offset -4. -/
theorem aadds_index_count_and_minus_one_pass :
    state_after (array_program 5 5 4) no_natives 4 =
      Except.ok {
        S := [c0_value.ptr (Ptr.addr 2 20)],
        P := [ILDC, 0, 0, NEWARRAY, 4, ILDC, 0, 1, AADDS, RETURN], pc := 9, V := [],
        callStack := [],
        H := [Block.raw [], Block.array 5 4 (Ptr.addr 2 0),
              Block.raw (List.replicate 20 (Cell.byte 0))],
        calls := [] } ∧
    state_after (array_program 5 (-1) 4) no_natives 4 =
      Except.ok {
        S := [c0_value.ptr (Ptr.addr 2 (-4))],
        P := [ILDC, 0, 0, NEWARRAY, 4, ILDC, 0, 1, AADDS, RETURN], pc := 9, V := [],
        callStack := [],
        H := [Block.raw [], Block.array 5 4 (Ptr.addr 2 0),
              Block.raw (List.replicate 20 (Cell.byte 0))],
        calls := [] } :=
  ⟨rfl, rfl⟩

/-- C5, the code at the failing inputs: on an array of `n = 128` elements the
index 0 raises the User error, and on an array of `n = 300` elements of 4
bytes the index 299 gives the reference to byte offset `4 * 43 = 172`, not
`4 * 299`. -/
theorem aadds_truncates_index_to_char :
    state_after (array_program 128 0 1) no_natives 4 =
      Except.error (Halt.aborted ErrorKind.User (Msg.lit "'i' is not valid index") {
        S := [],
        P := [ILDC, 0, 0, NEWARRAY, 1, ILDC, 0, 1, AADDS, RETURN], pc := 9, V := [],
        callStack := [],
        H := [Block.raw [], Block.array 128 1 (Ptr.addr 2 0),
              Block.raw (List.replicate 128 (Cell.byte 0))],
        calls := [] }) ∧
    state_after (array_program 300 299 4) no_natives 4 =
      Except.ok {
        S := [c0_value.ptr (Ptr.addr 2 172)],
        P := [ILDC, 0, 0, NEWARRAY, 4, ILDC, 0, 1, AADDS, RETURN], pc := 9, V := [],
        callStack := [],
        H := [Block.raw [], Block.array 300 4 (Ptr.addr 2 0),
              Block.raw (List.replicate 1200 (Cell.byte 0))],
        calls := [] } :=
  ⟨rfl, rfl⟩

/-! ## VSTORE and VLOAD -/

/-- C11: with `v` on top of the operand stack and `i` a slot of the locals,
`VSTORE i` followed by `VLOAD i` leaves the operand stack as it was, with `v`
on top, `locals[i] = v` and every other slot of the locals unchanged. -/
theorem vstore_vload_round_trip (bc0 : bc0_file) (nft : native_table) (st : State)
    (i : Nat) (v : c0_value) (rest : List c0_value)
    (h0 : st.P[st.pc]? = some VSTORE) (h1 : st.P[st.pc + 1]? = some i)
    (h2 : st.P[st.pc + 2]? = some VLOAD) (h3 : st.P[st.pc + 3]? = some i)
    (hi : i < st.V.length) (hS : st.S = v :: rest) :
    steps bc0 nft 2 st =
      Except.ok { st with pc := st.pc + 4, S := v :: rest, V := st.V.set i v } ∧
    (st.V.set i v)[i]? = some v ∧
    ∀ j, j ≠ i → (st.V.set i v)[j]? = st.V[j]? := by
  have s1 : step bc0 nft st =
      Except.ok { st with pc := st.pc + 2, S := rest, V := st.V.set i v } := by
    rw [step_VSTORE bc0 nft st h0]
    simp [case_VSTORE, hS, h1, hi, fetch, c0v_pop, bind, Except.bind, pure, Except.pure]
  have s2 : step bc0 nft { st with pc := st.pc + 2, S := rest, V := st.V.set i v } =
      Except.ok { st with pc := st.pc + 4, S := v :: rest, V := st.V.set i v } := by
    rw [step_VLOAD bc0 nft _ h2]
    simp [case_VLOAD, h3, hi, fetch, c0v_push, bind, Except.bind, pure, Except.pure]
  refine ⟨?_, ?_, ?_⟩
  · simp [steps, s1, s2]
  · simp [hi]
  · intro j hj
    simp [List.getElem?_set, Ne.symm hj]

/-- C11 on the code `VSTORE 1; VLOAD 1` with locals `[5, 6]` and operand stack
`[9, 7]` (7 on top): the locals become `[5, 7]` and the stack is `[9, 7]`. -/
theorem vstore_vload_round_trip_witness :
    steps empty_program no_natives 2
        { S := [c0_value.int 7, c0_value.int 9], P := [VSTORE, 1, VLOAD, 1], pc := 0,
          V := [c0_value.int 5, c0_value.int 6], callStack := [], H := [], calls := [] } =
      Except.ok
        { S := [c0_value.int 7, c0_value.int 9], P := [VSTORE, 1, VLOAD, 1], pc := 4,
          V := [c0_value.int 5, c0_value.int 7], callStack := [], H := [], calls := [] } :=
  (vstore_vload_round_trip empty_program no_natives
    { S := [c0_value.int 7, c0_value.int 9], P := [VSTORE, 1, VLOAD, 1], pc := 0,
      V := [c0_value.int 5, c0_value.int 6], callStack := [], H := [], calls := [] }
    1 (c0_value.int 7) [c0_value.int 9] rfl rfl rfl rfl (by decide) rfl).1

/-! ## BIPUSH -/

theorem int8_byte (b : Nat) (hb : b < 256) :
    int32 (int8 (b : Int)) = if b < 128 then (b : Int) else (b : Int) - 256 := by
  unfold int32 int8 toSigned
  norm_num
  split <;> omega

/-- C12: `BIPUSH b` pushes the byte `b` read as an 8-bit two's-complement
number, `b` when `b < 128` and `b - 256` otherwise, and moves `pc` two bytes
on; the byte `0xFF` pushes `-1`. -/
theorem bipush_sign_extends (bc0 : bc0_file) (nft : native_table) (st : State) (b : Nat)
    (hop : st.P[st.pc]? = some BIPUSH) (hb : st.P[st.pc + 1]? = some b) (hb256 : b < 256) :
    step bc0 nft st =
      Except.ok { st with
        pc := st.pc + 2,
        S := c0_value.int (if b < 128 then (b : Int) else (b : Int) - 256) :: st.S } := by
  rw [step_BIPUSH bc0 nft st hop]
  simp [case_BIPUSH, hb, fetch, push_int, c0v_push, int2val, bind, Except.bind, pure,
    Except.pure, int8_byte b hb256]

/-- C12 at `b = 0xFF`: `BIPUSH 0xFF` pushes `-1`. -/
theorem bipush_sign_extends_witness :
    step empty_program no_natives (sample_state [BIPUSH, 0xFF] []) =
      Except.ok { sample_state [BIPUSH, 0xFF] [c0_value.int (-1)] with pc := 2 } :=
  bipush_sign_extends empty_program no_natives (sample_state [BIPUSH, 0xFF] []) 0xFF
    rfl rfl (by decide)

/-! ## ASSERT -/

/-- C18: on operand stack `[..., c, m]` (the message reference `m` on top, the
integer `c` below), ASSERT pops both and ends in an Assertion failure that
carries `m` if and only if `c = 0`; when `c ≠ 0` the run goes on at `pc + 1`
with operand stack `[...]`, and code, locals, call stack and heap as before. -/
theorem assert_fails_iff_zero (bc0 : bc0_file) (nft : native_table) (st : State)
    (c : Int) (m : Ptr) (rest : List c0_value)
    (hop : st.P[st.pc]? = some ASSERT)
    (hS : st.S = c0_value.ptr m :: c0_value.int c :: rest) :
    ((∃ msg st', step bc0 nft st =
        Except.error (Halt.aborted ErrorKind.Assertion msg st')) ↔ c = 0) ∧
    (c = 0 →
      step bc0 nft st =
        Except.error (Halt.aborted ErrorKind.Assertion (Msg.ref m)
          { st with pc := st.pc + 1, S := rest })) ∧
    (c ≠ 0 → step bc0 nft st = Except.ok { st with pc := st.pc + 1, S := rest }) := by
  have herr : c = 0 →
      step bc0 nft st =
        Except.error (Halt.aborted ErrorKind.Assertion (Msg.ref m)
          { st with pc := st.pc + 1, S := rest }) := by
    intro hc
    rw [step_ASSERT bc0 nft st hop]
    simp [case_ASSERT, hS, hc, c0v_pop, pop_int, pop_ptr, val2int, val2ptr, bind, Except.bind,
      pure, Except.pure, c0_assertion_failure]
  have hok : c ≠ 0 → step bc0 nft st = Except.ok { st with pc := st.pc + 1, S := rest } := by
    intro hc
    rw [step_ASSERT bc0 nft st hop]
    simp [case_ASSERT, hS, hc, c0v_pop, pop_int, pop_ptr, val2int, val2ptr, bind, Except.bind,
      pure, Except.pure]
  refine ⟨⟨?_, fun hc => ⟨_, _, herr hc⟩⟩, herr, hok⟩
  rintro ⟨msg, st', h⟩
  by_contra hc
  rw [hok hc] at h
  cases h

/-- C18 at `c = 0` with the message at offset 3 of the string pool: ASSERT
ends in the Assertion failure that carries this reference. -/
theorem assert_fails_iff_zero_witness :
    step empty_program no_natives
        (sample_state [ASSERT] [c0_value.ptr (Ptr.addr 0 3), c0_value.int 0]) =
      Except.error (Halt.aborted ErrorKind.Assertion (Msg.ref (Ptr.addr 0 3))
        { sample_state [ASSERT] [] with pc := 1 }) :=
  (assert_fails_iff_zero empty_program no_natives
    (sample_state [ASSERT] [c0_value.ptr (Ptr.addr 0 3), c0_value.int 0]) 0 (Ptr.addr 0 3) []
    rfl rfl).2.1 rfl

/-! ## IADD, ISUB and IMUL -/

/-- The conversion to `int32_t` gives the one 32-bit signed integer that is
congruent to its argument modulo `2 ^ 32`. -/
theorem int32_unique (z : Int) :
    isInt32 (int32 z) ∧ (4294967296 : Int) ∣ int32 z - z ∧
    ∀ r : Int, isInt32 r → (4294967296 : Int) ∣ r - z → r = int32 z := by
  unfold isInt32 INT_MIN INT_MAX int32 toSigned
  norm_num
  refine ⟨by omega, by omega, ?_⟩
  intro r h1 h2 h3
  omega

/-- C19: on operand stack `[..., x, y]`, IADD, ISUB and IMUL do not fail: they
replace `x` and `y` by one value, the 32-bit signed integer congruent modulo
`2 ^ 32` to `x + y`, `x - y`, `x * y`, which is the only such integer, and move
`pc` one byte on; `INT_MAX + 1` gives `INT_MIN`. -/
theorem iadd_isub_imul_wrap (bc0 : bc0_file) (nft : native_table) (st : State)
    (x y : Int) (rest : List c0_value)
    (hS : st.S = c0_value.int y :: c0_value.int x :: rest) :
    (st.P[st.pc]? = some IADD →
      step bc0 nft st =
        Except.ok { st with pc := st.pc + 1, S := c0_value.int (int32 (x + y)) :: rest }) ∧
    (st.P[st.pc]? = some ISUB →
      step bc0 nft st =
        Except.ok { st with pc := st.pc + 1, S := c0_value.int (int32 (x - y)) :: rest }) ∧
    (st.P[st.pc]? = some IMUL →
      step bc0 nft st =
        Except.ok { st with pc := st.pc + 1, S := c0_value.int (int32 (x * y)) :: rest }) ∧
    (∀ z : Int, isInt32 (int32 z) ∧ (4294967296 : Int) ∣ int32 z - z ∧
      ∀ r : Int, isInt32 r → (4294967296 : Int) ∣ r - z → r = int32 z) ∧
    int32 (INT_MAX + 1) = INT_MIN := by
  refine ⟨?_, ?_, ?_, int32_unique, by decide⟩
  · intro hop
    rw [step_IADD bc0 nft st hop]
    simp [case_IADD, hS, c0v_pop, c0v_push, pop_int, val2int, push_int, int2val, bind,
      Except.bind, pure, Except.pure]
  · intro hop
    rw [step_ISUB bc0 nft st hop]
    simp [case_ISUB, hS, c0v_pop, c0v_push, pop_int, val2int, push_int, int2val, bind,
      Except.bind, pure, Except.pure]
  · intro hop
    rw [step_IMUL bc0 nft st hop]
    simp [case_IMUL, hS, c0v_pop, c0v_push, pop_int, val2int, push_int, int2val, bind,
      Except.bind, pure, Except.pure]

/-- C19 at `x = INT_MAX`, `y = 1`: IADD pushes `INT_MIN`. -/
theorem iadd_isub_imul_wrap_witness :
    step empty_program no_natives
        (sample_state [IADD] [c0_value.int 1, c0_value.int 2147483647]) =
      Except.ok { sample_state [IADD] [c0_value.int (-2147483648)] with pc := 1 } :=
  (iadd_isub_imul_wrap empty_program no_natives
    (sample_state [IADD] [c0_value.int 1, c0_value.int 2147483647]) 2147483647 1 [] rfl).1 rfl

/-! ## Branches -/

theorem int16_bytes2 (hi lo : Nat) (hhi : hi < 256) (hlo : lo < 256) :
    int16 (bytes2 hi lo) =
      if hi * 256 + lo < 32768 then ((hi * 256 + lo : Nat) : Int)
      else ((hi * 256 + lo : Nat) : Int) - 65536 := by
  rw [bytes2_eq hi lo hlo]
  unfold int16 toSigned
  norm_num
  split <;> omega

/-- The assignment `pc += count - 1`, made after `pc++`, lands on the opcode
address plus `count` when that is an address a `size_t` holds. -/
theorem size_t_add_target (pc target : Nat) (off : Int)
    (ht : (target : Int) = (pc : Int) + off) (hlt : target < 2 ^ 64) :
    size_t_add (pc + 1) (off - 1) = target := by
  unfold size_t_add
  have : ((pc + 1 : Nat) : Int) + (off - 1) = (target : Int) := by
    push_cast
    omega
  rw [this]
  have h2 : (target : Int) % 2 ^ 64 = target := by
    apply Int.emod_eq_of_lt
    · omega
    · exact_mod_cast hlt
  rw [h2]
  simp

theorem branch_GOTO (bc0 : bc0_file) (nft : native_table) (st : State)
    (hi lo : Nat) (off : Int)
    (hhi : st.P[st.pc + 1]? = some hi) (hlo : st.P[st.pc + 2]? = some lo)
    (hhi256 : hi < 256) (hlo256 : lo < 256)
    (hoff : off = if hi * 256 + lo < 32768 then ((hi * 256 + lo : Nat) : Int)
      else ((hi * 256 + lo : Nat) : Int) - 65536)
    (hop : st.P[st.pc]? = some GOTO) (target : Nat)
    (ht : (target : Int) = (st.pc : Int) + off) (hlt : target < 2 ^ 64) :
    step bc0 nft st = Except.ok { st with pc := target } := by
  have hc : int16 (bytes2 hi lo) = off := by rw [hoff]; exact int16_bytes2 hi lo hhi256 hlo256
  rw [step_GOTO bc0 nft st hop]
  simp [case_GOTO, fetch, hhi, hlo, hc, size_t_add_target st.pc target off ht hlt, bind,
    Except.bind, pure, Except.pure]

theorem branch_IF_ICMPLT (bc0 : bc0_file) (nft : native_table) (st : State)
    (hi lo : Nat) (off : Int)
    (hhi : st.P[st.pc + 1]? = some hi) (hlo : st.P[st.pc + 2]? = some lo)
    (hhi256 : hi < 256) (hlo256 : lo < 256)
    (hoff : off = if hi * 256 + lo < 32768 then ((hi * 256 + lo : Nat) : Int)
      else ((hi * 256 + lo : Nat) : Int) - 65536)
    (x y : Int) (rest : List c0_value)
    (hS : st.S = c0_value.int y :: c0_value.int x :: rest)
    (hop : st.P[st.pc]? = some IF_ICMPLT) :
    (x < y → ∀ target : Nat, (target : Int) = (st.pc : Int) + off → target < 2 ^ 64 →
      step bc0 nft st = Except.ok { st with pc := target, S := rest }) ∧
    (¬ x < y → step bc0 nft st = Except.ok { st with pc := st.pc + 3, S := rest }) := by
  have hc : int16 (bytes2 hi lo) = off := by rw [hoff]; exact int16_bytes2 hi lo hhi256 hlo256
  rw [step_IF_ICMPLT bc0 nft st hop]
  constructor
  · intro hcond target ht hlt
    simp [case_IF_ICMPLT, fetch, hS, hhi, hlo, hc, hcond,
      size_t_add_target st.pc target off ht hlt, c0v_pop, pop_int, val2int, bind, Except.bind,
      pure, Except.pure]
  · intro hcond
    simp [case_IF_ICMPLT, hS, hcond, c0v_pop, pop_int, val2int, bind, Except.bind, pure,
      Except.pure]

theorem branch_IF_ICMPGE (bc0 : bc0_file) (nft : native_table) (st : State)
    (hi lo : Nat) (off : Int)
    (hhi : st.P[st.pc + 1]? = some hi) (hlo : st.P[st.pc + 2]? = some lo)
    (hhi256 : hi < 256) (hlo256 : lo < 256)
    (hoff : off = if hi * 256 + lo < 32768 then ((hi * 256 + lo : Nat) : Int)
      else ((hi * 256 + lo : Nat) : Int) - 65536)
    (x y : Int) (rest : List c0_value)
    (hS : st.S = c0_value.int y :: c0_value.int x :: rest)
    (hop : st.P[st.pc]? = some IF_ICMPGE) :
    (x ≥ y → ∀ target : Nat, (target : Int) = (st.pc : Int) + off → target < 2 ^ 64 →
      step bc0 nft st = Except.ok { st with pc := target, S := rest }) ∧
    (¬ x ≥ y → step bc0 nft st = Except.ok { st with pc := st.pc + 3, S := rest }) := by
  have hc : int16 (bytes2 hi lo) = off := by rw [hoff]; exact int16_bytes2 hi lo hhi256 hlo256
  rw [step_IF_ICMPGE bc0 nft st hop]
  constructor
  · intro hcond target ht hlt
    simp [case_IF_ICMPGE, fetch, hS, hhi, hlo, hc, hcond,
      size_t_add_target st.pc target off ht hlt, c0v_pop, pop_int, val2int, bind, Except.bind,
      pure, Except.pure]
  · intro hcond
    simp [case_IF_ICMPGE, hS, hcond, c0v_pop, pop_int, val2int, bind, Except.bind, pure,
      Except.pure]

theorem branch_IF_ICMPGT (bc0 : bc0_file) (nft : native_table) (st : State)
    (hi lo : Nat) (off : Int)
    (hhi : st.P[st.pc + 1]? = some hi) (hlo : st.P[st.pc + 2]? = some lo)
    (hhi256 : hi < 256) (hlo256 : lo < 256)
    (hoff : off = if hi * 256 + lo < 32768 then ((hi * 256 + lo : Nat) : Int)
      else ((hi * 256 + lo : Nat) : Int) - 65536)
    (x y : Int) (rest : List c0_value)
    (hS : st.S = c0_value.int y :: c0_value.int x :: rest)
    (hop : st.P[st.pc]? = some IF_ICMPGT) :
    (x > y → ∀ target : Nat, (target : Int) = (st.pc : Int) + off → target < 2 ^ 64 →
      step bc0 nft st = Except.ok { st with pc := target, S := rest }) ∧
    (¬ x > y → step bc0 nft st = Except.ok { st with pc := st.pc + 3, S := rest }) := by
  have hc : int16 (bytes2 hi lo) = off := by rw [hoff]; exact int16_bytes2 hi lo hhi256 hlo256
  rw [step_IF_ICMPGT bc0 nft st hop]
  constructor
  · intro hcond target ht hlt
    simp [case_IF_ICMPGT, fetch, hS, hhi, hlo, hc, hcond,
      size_t_add_target st.pc target off ht hlt, c0v_pop, pop_int, val2int, bind, Except.bind,
      pure, Except.pure]
  · intro hcond
    simp [case_IF_ICMPGT, hS, hcond, c0v_pop, pop_int, val2int, bind, Except.bind, pure,
      Except.pure]

theorem branch_IF_ICMPLE (bc0 : bc0_file) (nft : native_table) (st : State)
    (hi lo : Nat) (off : Int)
    (hhi : st.P[st.pc + 1]? = some hi) (hlo : st.P[st.pc + 2]? = some lo)
    (hhi256 : hi < 256) (hlo256 : lo < 256)
    (hoff : off = if hi * 256 + lo < 32768 then ((hi * 256 + lo : Nat) : Int)
      else ((hi * 256 + lo : Nat) : Int) - 65536)
    (x y : Int) (rest : List c0_value)
    (hS : st.S = c0_value.int y :: c0_value.int x :: rest)
    (hop : st.P[st.pc]? = some IF_ICMPLE) :
    (x ≤ y → ∀ target : Nat, (target : Int) = (st.pc : Int) + off → target < 2 ^ 64 →
      step bc0 nft st = Except.ok { st with pc := target, S := rest }) ∧
    (¬ x ≤ y → step bc0 nft st = Except.ok { st with pc := st.pc + 3, S := rest }) := by
  have hc : int16 (bytes2 hi lo) = off := by rw [hoff]; exact int16_bytes2 hi lo hhi256 hlo256
  rw [step_IF_ICMPLE bc0 nft st hop]
  constructor
  · intro hcond target ht hlt
    simp [case_IF_ICMPLE, fetch, hS, hhi, hlo, hc, hcond,
      size_t_add_target st.pc target off ht hlt, c0v_pop, pop_int, val2int, bind, Except.bind,
      pure, Except.pure]
  · intro hcond
    simp [case_IF_ICMPLE, hS, hcond, c0v_pop, pop_int, val2int, bind, Except.bind, pure,
      Except.pure]

theorem val_equal_same_kind (v1 v2 : c0_value)
    (hk : (∃ i j, v1 = c0_value.int i ∧ v2 = c0_value.int j) ∨
      (∃ p q, v1 = c0_value.ptr p ∧ v2 = c0_value.ptr q)) :
    val_equal v1 v2 = Except.ok (decide (v1 = v2)) := by
  rcases hk with ⟨i, j, rfl, rfl⟩ | ⟨p, q, rfl, rfl⟩ <;> simp [val_equal]

theorem branch_IF_CMPEQ (bc0 : bc0_file) (nft : native_table) (st : State)
    (hi lo : Nat) (off : Int)
    (hhi : st.P[st.pc + 1]? = some hi) (hlo : st.P[st.pc + 2]? = some lo)
    (hhi256 : hi < 256) (hlo256 : lo < 256)
    (hoff : off = if hi * 256 + lo < 32768 then ((hi * 256 + lo : Nat) : Int)
      else ((hi * 256 + lo : Nat) : Int) - 65536)
    (v1 v2 : c0_value) (rest : List c0_value) (hS : st.S = v2 :: v1 :: rest)
    (hk : (∃ i j, v1 = c0_value.int i ∧ v2 = c0_value.int j) ∨
      (∃ p q, v1 = c0_value.ptr p ∧ v2 = c0_value.ptr q))
    (hop : st.P[st.pc]? = some IF_CMPEQ) :
    (v1 = v2 → ∀ target : Nat, (target : Int) = (st.pc : Int) + off → target < 2 ^ 64 →
      step bc0 nft st = Except.ok { st with pc := target, S := rest }) ∧
    (v1 ≠ v2 → step bc0 nft st = Except.ok { st with pc := st.pc + 3, S := rest }) := by
  have hc : int16 (bytes2 hi lo) = off := by rw [hoff]; exact int16_bytes2 hi lo hhi256 hlo256
  have hve := val_equal_same_kind v1 v2 hk
  rw [step_IF_CMPEQ bc0 nft st hop]
  constructor
  · intro hcond target ht hlt
    subst hcond
    simp [case_IF_CMPEQ, fetch, hS, hhi, hlo, hc, hve,
      size_t_add_target st.pc target off ht hlt, c0v_pop, bind, Except.bind, pure, Except.pure]
  · intro hcond
    simp [case_IF_CMPEQ, hS, hve, hcond, c0v_pop, bind, Except.bind, pure, Except.pure]

theorem branch_IF_CMPNE (bc0 : bc0_file) (nft : native_table) (st : State)
    (hi lo : Nat) (off : Int)
    (hhi : st.P[st.pc + 1]? = some hi) (hlo : st.P[st.pc + 2]? = some lo)
    (hhi256 : hi < 256) (hlo256 : lo < 256)
    (hoff : off = if hi * 256 + lo < 32768 then ((hi * 256 + lo : Nat) : Int)
      else ((hi * 256 + lo : Nat) : Int) - 65536)
    (v1 v2 : c0_value) (rest : List c0_value) (hS : st.S = v2 :: v1 :: rest)
    (hk : (∃ i j, v1 = c0_value.int i ∧ v2 = c0_value.int j) ∨
      (∃ p q, v1 = c0_value.ptr p ∧ v2 = c0_value.ptr q))
    (hop : st.P[st.pc]? = some IF_CMPNE) :
    (v1 ≠ v2 → ∀ target : Nat, (target : Int) = (st.pc : Int) + off → target < 2 ^ 64 →
      step bc0 nft st = Except.ok { st with pc := target, S := rest }) ∧
    (v1 = v2 → step bc0 nft st = Except.ok { st with pc := st.pc + 3, S := rest }) := by
  have hc : int16 (bytes2 hi lo) = off := by rw [hoff]; exact int16_bytes2 hi lo hhi256 hlo256
  have hve := val_equal_same_kind v1 v2 hk
  rw [step_IF_CMPNE bc0 nft st hop]
  constructor
  · intro hcond target ht hlt
    simp [case_IF_CMPNE, fetch, hS, hhi, hlo, hc, hve, hcond,
      size_t_add_target st.pc target off ht hlt, c0v_pop, bind, Except.bind, pure, Except.pure]
  · intro hcond
    subst hcond
    simp [case_IF_CMPNE, hS, hve, c0v_pop, bind, Except.bind, pure, Except.pure]

/-- C13: for a branch at opcode address `pc` with immediate bytes `hi`, `lo`,
let `off` be `hi * 256 + lo` read as a signed 16-bit number. GOTO always, the
IF_ICMP branches when `x < y`, `x ≥ y`, `x > y`, `x ≤ y` on the popped
integers (`y` on top), IF_CMPEQ when the two popped values are equal and
IF_CMPNE when they differ, continue at `pc + off`, wherever that is an
address; otherwise the conditional branches continue at `pc + 3`. The
conditional branches pop their two values in both cases. The equality
branches are taken on two values of one kind, as the spec defines them. -/
theorem branch_target (bc0 : bc0_file) (nft : native_table) (st : State)
    (hi lo : Nat) (off : Int)
    (hhi : st.P[st.pc + 1]? = some hi) (hlo : st.P[st.pc + 2]? = some lo)
    (hhi256 : hi < 256) (hlo256 : lo < 256)
    (hoff : off = if hi * 256 + lo < 32768 then ((hi * 256 + lo : Nat) : Int)
      else ((hi * 256 + lo : Nat) : Int) - 65536) :
    (st.P[st.pc]? = some GOTO →
      ∀ target : Nat, (target : Int) = (st.pc : Int) + off → target < 2 ^ 64 →
        step bc0 nft st = Except.ok { st with pc := target }) ∧
    (∀ (x y : Int) (rest : List c0_value),
      st.S = c0_value.int y :: c0_value.int x :: rest →
      (st.P[st.pc]? = some IF_ICMPLT →
        (x < y → ∀ target : Nat, (target : Int) = (st.pc : Int) + off → target < 2 ^ 64 →
          step bc0 nft st = Except.ok { st with pc := target, S := rest }) ∧
        (¬ x < y → step bc0 nft st = Except.ok { st with pc := st.pc + 3, S := rest })) ∧
      (st.P[st.pc]? = some IF_ICMPGE →
        (x ≥ y → ∀ target : Nat, (target : Int) = (st.pc : Int) + off → target < 2 ^ 64 →
          step bc0 nft st = Except.ok { st with pc := target, S := rest }) ∧
        (¬ x ≥ y → step bc0 nft st = Except.ok { st with pc := st.pc + 3, S := rest })) ∧
      (st.P[st.pc]? = some IF_ICMPGT →
        (x > y → ∀ target : Nat, (target : Int) = (st.pc : Int) + off → target < 2 ^ 64 →
          step bc0 nft st = Except.ok { st with pc := target, S := rest }) ∧
        (¬ x > y → step bc0 nft st = Except.ok { st with pc := st.pc + 3, S := rest })) ∧
      (st.P[st.pc]? = some IF_ICMPLE →
        (x ≤ y → ∀ target : Nat, (target : Int) = (st.pc : Int) + off → target < 2 ^ 64 →
          step bc0 nft st = Except.ok { st with pc := target, S := rest }) ∧
        (¬ x ≤ y → step bc0 nft st = Except.ok { st with pc := st.pc + 3, S := rest }))) ∧
    (∀ (v1 v2 : c0_value) (rest : List c0_value), st.S = v2 :: v1 :: rest →
      ((∃ i j, v1 = c0_value.int i ∧ v2 = c0_value.int j) ∨
        (∃ p q, v1 = c0_value.ptr p ∧ v2 = c0_value.ptr q)) →
      (st.P[st.pc]? = some IF_CMPEQ →
        (v1 = v2 → ∀ target : Nat, (target : Int) = (st.pc : Int) + off → target < 2 ^ 64 →
          step bc0 nft st = Except.ok { st with pc := target, S := rest }) ∧
        (v1 ≠ v2 → step bc0 nft st = Except.ok { st with pc := st.pc + 3, S := rest })) ∧
      (st.P[st.pc]? = some IF_CMPNE →
        (v1 ≠ v2 → ∀ target : Nat, (target : Int) = (st.pc : Int) + off → target < 2 ^ 64 →
          step bc0 nft st = Except.ok { st with pc := target, S := rest }) ∧
        (v1 = v2 → step bc0 nft st = Except.ok { st with pc := st.pc + 3, S := rest }))) := by
  refine ⟨fun hop target ht hlt =>
      branch_GOTO bc0 nft st hi lo off hhi hlo hhi256 hlo256 hoff hop target ht hlt,
    fun x y rest hS => ⟨?_, ?_, ?_, ?_⟩, fun v1 v2 rest hS hk => ⟨?_, ?_⟩⟩
  · exact branch_IF_ICMPLT bc0 nft st hi lo off hhi hlo hhi256 hlo256 hoff x y rest hS
  · exact branch_IF_ICMPGE bc0 nft st hi lo off hhi hlo hhi256 hlo256 hoff x y rest hS
  · exact branch_IF_ICMPGT bc0 nft st hi lo off hhi hlo hhi256 hlo256 hoff x y rest hS
  · exact branch_IF_ICMPLE bc0 nft st hi lo off hhi hlo hhi256 hlo256 hoff x y rest hS
  · exact branch_IF_CMPEQ bc0 nft st hi lo off hhi hlo hhi256 hlo256 hoff v1 v2 rest hS hk
  · exact branch_IF_CMPNE bc0 nft st hi lo off hhi hlo hhi256 hlo256 hoff v1 v2 rest hS hk

/-- C13 on the backward GOTO of the loop scenario, at address 21 with
immediate bytes `0xFF 0xEF` (offset -17): the run continues at address 4. -/
theorem branch_target_witness :
    step (loop_program 3) no_natives { sample_state (loop_code 3) [] with pc := 21 } =
      Except.ok { sample_state (loop_code 3) [] with pc := 4 } :=
  (branch_target (loop_program 3) no_natives { sample_state (loop_code 3) [] with pc := 21 }
    0xFF 0xEF (-17) rfl rfl (by decide) (by decide) (by decide)).1 rfl 4 (by decide)
    (by decide)

/-! ## NEWARRAY and ARRAYLENGTH -/

theorem getElem?_append_new (H : Heap) (x y : Block) :
    (H ++ [x, y])[H.length]? = some x ∧ (H ++ [x, y])[H.length + 1]? = some y := by
  constructor
  · rw [List.getElem?_append_right (Nat.le_refl _)]
    simp
  · rw [List.getElem?_append_right (Nat.le_succ _)]
    simp

theorem getElem?_append_old (H : Heap) (l : List Block) (b : Nat) (hb : b < H.length) :
    (H ++ l)[b]? = H[b]? := by
  rw [List.getElem?_append_left hb]

/-- C14: `NEWARRAY s` on operand stack `[..., n]` ends in a Memory error if and
only if `n < 0`. For `n ≥ 0` it replaces `n` by the non-null reference `a` to
a new array header with `elementCount = n`, `elementSize = s` and a storage of
`n * s` zero bytes, and leaves the allocations made before as they are;
ARRAYLENGTH on `a`, in any state with that heap, pushes `n` (for a 32-bit
`n`). -/
theorem newarray_arraylength (bc0 : bc0_file) (nft : native_table) (st : State)
    (s : Nat) (n : Int) (rest : List c0_value) (a elems : Ptr) (H' : Heap)
    (hop : st.P[st.pc]? = some NEWARRAY) (hs : st.P[st.pc + 1]? = some s)
    (hS : st.S = c0_value.int n :: rest)
    (ha : a = Ptr.addr st.H.length 0) (he : elems = Ptr.addr (st.H.length + 1) 0)
    (hH' : H' = st.H ++ [Block.array n.toNat s elems,
      Block.raw (List.replicate (n.toNat * s) (Cell.byte 0))]) :
    ((∃ m st', step bc0 nft st = Except.error (Halt.aborted ErrorKind.Memory m st')) ↔
      n < 0) ∧
    (n < 0 →
      step bc0 nft st =
        Except.error (Halt.aborted ErrorKind.Memory (Msg.lit "memory-related error")
          { st with pc := st.pc + 1, S := rest })) ∧
    (0 ≤ n →
      step bc0 nft st =
        Except.ok { st with pc := st.pc + 2, S := c0_value.ptr a :: rest, H := H' } ∧
      a ≠ Ptr.null ∧
      readArray H' a = some (n.toNat, s, elems) ∧ (n.toNat : Int) = n ∧
      readCells H' elems (n.toNat * s) =
        some (List.replicate (n.toNat * s) (Cell.byte 0)) ∧
      (isInt32 n → ∀ (st2 : State) (rest2 : List c0_value),
        st2.H = H' → st2.P[st2.pc]? = some ARRAYLENGTH →
        st2.S = c0_value.ptr a :: rest2 →
        step bc0 nft st2 =
          Except.ok { st2 with pc := st2.pc + 1, S := c0_value.int n :: rest2 })) := by
  have herr : n < 0 →
      step bc0 nft st =
        Except.error (Halt.aborted ErrorKind.Memory (Msg.lit "memory-related error")
          { st with pc := st.pc + 1, S := rest }) := by
    intro hn
    rw [step_NEWARRAY bc0 nft st hop]
    simp [case_NEWARRAY, fetch, hs, hS, hn, c0v_pop, pop_int, val2int, bind, Except.bind,
      pure, Except.pure, c0_memory_error]
  have hok : 0 ≤ n →
      step bc0 nft st =
        Except.ok { st with pc := st.pc + 2, S := c0_value.ptr a :: rest, H := H' } := by
    intro hn
    have hn' : ¬ n < 0 := by omega
    rw [step_NEWARRAY bc0 nft st hop]
    simp [case_NEWARRAY, fetch, hs, hS, hn', ha, he, hH', xcalloc, xcalloc_array, c0v_pop,
      c0v_push, pop_int, val2int, push_ptr, ptr2val, bind, Except.bind, pure, Except.pure]
  have hra : readArray H' a = some (n.toNat, s, elems) := by
    subst ha hH'
    simp only [readArray, (getElem?_append_new st.H _ _).1]
  refine ⟨⟨?_, fun hn => ⟨_, _, herr hn⟩⟩, herr, fun hn => ⟨hok hn, ?_, hra, ?_, ?_, ?_⟩⟩
  · rintro ⟨m, st', h⟩
    by_contra hn
    rw [hok (by omega)] at h
    cases h
  · rw [ha]
    exact fun h => Ptr.noConfusion h
  · omega
  · subst he hH'
    simp only [readCells, (getElem?_append_new st.H _ _).2]
    simp
  · intro h32 st2 rest2 hH2 hop2 hS2
    have hcount : int32 n = n := by
      unfold isInt32 INT_MIN INT_MAX at h32
      unfold int32 toSigned
      norm_num
      omega
    have hnull : a ≠ Ptr.null := by
      rw [ha]
      exact fun h => Ptr.noConfusion h
    rw [step_ARRAYLENGTH bc0 nft st2 hop2]
    simp [case_ARRAYLENGTH, hS2, hH2, hra, hnull, hcount, max_eq_left hn, c0v_pop, c0v_push, pop_ptr, val2ptr,
      push_int, int2val, bind, Except.bind, pure, Except.pure]

/-- C14 at `s = 4`, `n = 5`: after `NEWARRAY 4` on the count 5, ARRAYLENGTH on
the new reference pushes 5. -/
theorem newarray_arraylength_witness :
    step empty_program no_natives
        { S := [c0_value.ptr (Ptr.addr 0 0)], P := [NEWARRAY, 4, ARRAYLENGTH], pc := 2,
          V := [], callStack := [],
          H := [Block.array 5 4 (Ptr.addr 1 0), Block.raw (List.replicate 20 (Cell.byte 0))],
          calls := [] } =
      Except.ok
        { S := [c0_value.int 5], P := [NEWARRAY, 4, ARRAYLENGTH], pc := 3,
          V := [], callStack := [],
          H := [Block.array 5 4 (Ptr.addr 1 0), Block.raw (List.replicate 20 (Cell.byte 0))],
          calls := [] } :=
  ((newarray_arraylength empty_program no_natives
    (sample_state [NEWARRAY, 4, ARRAYLENGTH] [c0_value.int 5]) 4 5 [] (Ptr.addr 0 0)
    (Ptr.addr 1 0)
    [Block.array 5 4 (Ptr.addr 1 0), Block.raw (List.replicate 20 (Cell.byte 0))]
    rfl rfl rfl rfl rfl rfl).2.2 (by decide)).2.2.2.2.2 (by decide)
    { S := [c0_value.ptr (Ptr.addr 0 0)], P := [NEWARRAY, 4, ARRAYLENGTH], pc := 2,
      V := [], callStack := [],
      H := [Block.array 5 4 (Ptr.addr 1 0), Block.raw (List.replicate 20 (Cell.byte 0))],
      calls := [] } [] rfl rfl rfl

/-! ## IMSTORE and IMLOAD -/

theorem cells_int_int_cells (x : Int) (hx : isInt32 x) : cells_int (int_cells x) = some x := by
  unfold isInt32 INT_MIN INT_MAX at hx
  simp only [int_cells, cells_int, Option.some.injEq]
  unfold int32 toSigned
  norm_num
  omega

theorem take_drop_splice (cells cs : List Cell) (k : Nat) (hk : k + cs.length ≤ cells.length) :
    ((cells.take k ++ cs ++ cells.drop (k + cs.length)).drop k).take cs.length = cs ∧
    (cells.take k ++ cs ++ cells.drop (k + cs.length)).length = cells.length ∧
    ∀ j, (j < k ∨ k + cs.length ≤ j) →
      (cells.take k ++ cs ++ cells.drop (k + cs.length))[j]? = cells[j]? := by
  have hlen : (cells.take k).length = k := by
    rw [List.length_take]; omega
  refine ⟨?_, ?_, ?_⟩
  · rw [List.append_assoc, List.drop_append_of_le_length (by omega)]
    have : List.drop k (List.take k cells) = [] := by
      rw [List.drop_eq_nil_iff]; omega
    rw [this, List.nil_append, List.take_append_of_le_length (Nat.le_refl _), List.take_length]
  · simp only [List.length_append, List.length_take, List.length_drop]
    omega
  · rintro j (hj | hj)
    · rw [List.append_assoc, List.getElem?_append_left (by omega), List.getElem?_take_of_lt hj]
    · rw [List.getElem?_append_right (by simp only [List.length_append, hlen]; omega)]
      simp only [List.length_append, hlen, List.getElem?_drop]
      congr 1
      omega

/-- C20: for a reference `a` to byte `off` of a buffer with at least 4 bytes
from there on, and a 32-bit `x`, IMSTORE on operand stack `[..., a, x]` writes
the four bytes of `x` at `a`, and IMLOAD on `[..., a]`, in any state with the
heap IMSTORE left, pushes `x`. IMSTORE changes no other allocation, keeps the
length of the buffer, and changes no byte of it outside the four at `a`. -/
theorem imstore_imload_round_trip (bc0 : bc0_file) (nft : native_table) (st : State)
    (b : Nat) (off : Int) (cells cells' : List Cell) (x : Int) (rest : List c0_value)
    (H1 : Heap)
    (hop : st.P[st.pc]? = some IMSTORE)
    (hS : st.S = c0_value.int x :: c0_value.ptr (Ptr.addr b off) :: rest)
    (hb : st.H[b]? = some (Block.raw cells)) (h0 : 0 ≤ off)
    (h4 : off.toNat + 4 ≤ cells.length) (hx : isInt32 x)
    (hc' : cells' = cells.take off.toNat ++ int_cells x ++ cells.drop (off.toNat + 4))
    (hH1 : H1 = st.H.set b (Block.raw cells')) :
    step bc0 nft st = Except.ok { st with pc := st.pc + 1, S := rest, H := H1 } ∧
    (∀ (st2 : State) (rest2 : List c0_value),
      st2.H = H1 → st2.P[st2.pc]? = some IMLOAD →
      st2.S = c0_value.ptr (Ptr.addr b off) :: rest2 →
      step bc0 nft st2 =
        Except.ok { st2 with pc := st2.pc + 1, S := c0_value.int x :: rest2 }) ∧
    H1.length = st.H.length ∧
    (∀ b', b' ≠ b → H1[b']? = st.H[b']?) ∧
    H1[b]? = some (Block.raw cells') ∧
    cells'.length = cells.length ∧
    (∀ j, (j < off.toNat ∨ off.toNat + 4 ≤ j) → cells'[j]? = cells[j]?) := by
  have hlen : (int_cells x).length = 4 := rfl
  have hsp := take_drop_splice cells (int_cells x) off.toNat (by rw [hlen]; exact h4)
  rw [hlen] at hsp
  rw [← hc'] at hsp
  have hbl : b < st.H.length := by
    rcases Nat.lt_or_ge b st.H.length with h | h
    · exact h
    · rw [List.getElem?_eq_none h] at hb
      cases hb
  have hH1b : H1[b]? = some (Block.raw cells') := by
    rw [hH1, List.getElem?_set_self hbl]
  refine ⟨?_, ?_, ?_, ?_, hH1b, hsp.2.1, hsp.2.2⟩
  · rw [step_IMSTORE bc0 nft st hop]
    simp [case_IMSTORE, hS, writeCells, hb, h0, h4, hlen, hH1, hc', c0v_pop, pop_int, pop_ptr,
      val2int, val2ptr, bind, Except.bind, pure, Except.pure]
  · intro st2 rest2 hH2 hop2 hS2
    have hrd : readCells H1 (Ptr.addr b off) 4 = some (int_cells x) := by
      simp only [readCells, hH1b, h0, hsp.2.1, h4, and_self, if_true, hsp.1]
    rw [step_IMLOAD bc0 nft st2 hop2]
    simp [case_IMLOAD, hS2, hH2, hrd, cells_int_int_cells x hx, c0v_pop, c0v_push, pop_ptr,
      val2ptr, push_int, int2val, bind, Except.bind, pure, Except.pure]
  · rw [hH1, List.length_set]
  · intro b' hne
    rw [hH1, List.getElem?_set_ne (Ne.symm hne)]

/-- C20 on the 4 zero bytes `NEW 4` allocates, with `x = -2`: IMSTORE leaves
the bytes `FE FF FF FF`, and IMLOAD on the same reference pushes `-2`. -/
theorem imstore_imload_round_trip_witness :
    step empty_program no_natives
        { S := [c0_value.ptr (Ptr.addr 0 0)], P := [IMSTORE, IMLOAD], pc := 1, V := [],
          callStack := [],
          H := [Block.raw [Cell.byte 254, Cell.byte 255, Cell.byte 255, Cell.byte 255]],
          calls := [] } =
      Except.ok
        { S := [c0_value.int (-2)], P := [IMSTORE, IMLOAD], pc := 2, V := [],
          callStack := [],
          H := [Block.raw [Cell.byte 254, Cell.byte 255, Cell.byte 255, Cell.byte 255]],
          calls := [] } :=
  (imstore_imload_round_trip empty_program no_natives
    { S := [c0_value.int (-2), c0_value.ptr (Ptr.addr 0 0)], P := [IMSTORE, IMLOAD], pc := 0,
      V := [], callStack := [],
      H := [Block.raw (List.replicate 4 (Cell.byte 0))], calls := [] }
    0 0 (List.replicate 4 (Cell.byte 0))
    [Cell.byte 254, Cell.byte 255, Cell.byte 255, Cell.byte 255] (-2) []
    [Block.raw [Cell.byte 254, Cell.byte 255, Cell.byte 255, Cell.byte 255]]
    rfl rfl rfl (by decide) (by decide) (by decide) rfl rfl).2.1
    { S := [c0_value.ptr (Ptr.addr 0 0)], P := [IMSTORE, IMLOAD], pc := 1, V := [],
      callStack := [],
      H := [Block.raw [Cell.byte 254, Cell.byte 255, Cell.byte 255, Cell.byte 255]],
      calls := [] } [] rfl rfl rfl

/-! ## Runs of whole programs -/

theorem run_ok (bc0 : bc0_file) (nft : native_table) (n : Nat) (st st' : State)
    (h : step bc0 nft st = Except.ok st') : run bc0 nft (n + 1) st = run bc0 nft n st' := by
  simp [run, h]

theorem run_halt (bc0 : bc0_file) (nft : native_table) (n : Nat) (st : State) (e : Halt)
    (h : step bc0 nft st = Except.error e) : run bc0 nft (n + 1) st = some e := by
  simp [run, h]

theorem visits_ok (bc0 : bc0_file) (nft : native_table) (a n : Nat) (st st' : State)
    (h : step bc0 nft st = Except.ok st') :
    visits bc0 nft a (n + 1) st = (if st.pc = a then 1 else 0) + visits bc0 nft a n st' := by
  simp [visits, h]

theorem visits_halt (bc0 : bc0_file) (nft : native_table) (a n : Nat) (st : State) (e : Halt)
    (h : step bc0 nft st = Except.error e) :
    visits bc0 nft a (n + 1) st = (if st.pc = a then 1 else 0) := by
  simp [visits, h]

theorem int8_small (n : Nat) (hn : n ≤ 127) : int32 (int8 (n : Int)) = n := by
  rw [int8_byte n (by omega), if_pos (by omega)]

theorem int32_small (z : Int) (h : -2147483648 ≤ z ∧ z ≤ 2147483647) : int32 z = z := by
  unfold int32 toSigned
  norm_num
  omega

theorem sext_mul_small (a b : Nat) (ha : a < 256) (hb : b < 256) :
    int32 (int32 (int8 (a : Int)) * int32 (int8 (b : Int))) =
      (if a < 128 then (a : Int) else (a : Int) - 256) *
        (if b < 128 then (b : Int) else (b : Int) - 256) := by
  rw [int8_byte a ha, int8_byte b hb]
  generalize hA : (if a < 128 then (a : Int) else (a : Int) - 256) = A
  generalize hB : (if b < 128 then (b : Int) else (b : Int) - 256) = B
  have hA1 : -128 ≤ A ∧ A ≤ 127 := by subst hA; split <;> omega
  have hB1 : -128 ≤ B ∧ B ≤ 127 := by subst hB; split <;> omega
  have h1 : -16384 ≤ A * B ∧ A * B ≤ 16384 := by
    constructor <;> nlinarith [hA1.1, hA1.2, hB1.1, hB1.2]
  unfold int32 toSigned
  norm_num
  omega

theorem case_INVOKESTATIC_frame (bc0 : bc0_file) (st : State)
    (hi lo : Nat) (f : function_info) (args rest : List c0_value)
    (hhi : st.P[st.pc + 1]? = some hi) (hlo : st.P[st.pc + 2]? = some lo)
    (hhi256 : hi < 256) (hlo256 : lo < 256)
    (hf : bc0.function_pool[hi * 256 + lo]? = some f)
    (hk : args.length = f.num_args) (hm : f.num_args ≤ f.num_vars)
    (hm16 : f.num_vars < 65536)
    (hS : st.S = args.reverse ++ rest) :
    case_INVOKESTATIC bc0 st =
      Except.ok {
        S := [], P := f.code, pc := 0,
        V := args ++ List.replicate (f.num_vars - f.num_args) zero_value,
        callStack := { S := rest, P := st.P, pc := st.pc + 3, V := st.V } :: st.callStack,
        H := st.H, calls := st.calls } := by
  have h1 : (uint16 (f.num_args : Int)).toNat = f.num_args := by unfold uint16; omega
  have h2 : (uint16 (f.num_vars : Int)).toNat = f.num_vars := by unfold uint16; omega
  have hp := pop_args_spec f.num_args rest args.reverse
    (List.replicate f.num_vars zero_value) (by simp [hk]) (by simp [hk]; exact hm)
  simp only [List.length_reverse, hk, List.reverse_reverse, List.drop_replicate] at hp
  simp [case_INVOKESTATIC, fetch, hhi, hlo, uint16_bytes2 hi lo hhi256 hlo256, hf, h1, h2,
    hS, hp, bind, Except.bind, pure, Except.pure]

/-- C15: for all immediate bytes `a` and `b`, `execute` on the program whose
entry function is `BIPUSH a; BIPUSH b; INVOKESTATIC 1; RETURN` and whose
function 1 (2 arguments, 2 variables) is `VLOAD 0; VLOAD 1; IMUL; RETURN`
ends without error, for every fuel of at least 8 instructions, and returns
the product of `a` and `b` read as signed bytes; the call stack is empty
when it ends. -/
theorem call_scenario (nft : native_table) (a b : Nat) (ha : a < 256) (hb : b < 256)
    (fuel : Nat) (hfuel : 8 ≤ fuel) :
    execute (mul_program a b) nft fuel =
      some (Halt.returned
        ((if a < 128 then (a : Int) else (a : Int) - 256) *
          (if b < 128 then (b : Int) else (b : Int) - 256))
        { S := [], P := [BIPUSH, a, BIPUSH, b, INVOKESTATIC, 0, 1, RETURN], pc := 7, V := [],
          callStack := [], H := [Block.raw []], calls := [] }) := by
  obtain ⟨k, rfl⟩ : ∃ k, fuel = k + 8 := ⟨fuel - 8, by omega⟩
  let c0 := [BIPUSH, a, BIPUSH, b, INVOKESTATIC, 0, 1, RETURN]
  let c1 := [VLOAD, 0, VLOAD, 1, IMUL, RETURN]
  let A := int32 (int8 (a : Int))
  let B := int32 (int8 (b : Int))
  let H0 : Heap := [Block.raw []]
  let fr : frame_info := { S := [], P := c0, pc := 7, V := [] }
  have s1 : step (mul_program a b) nft { S := [], P := c0, pc := 0, V := [], callStack := [], H := H0, calls := [] } =
      Except.ok { S := [c0_value.int A], P := c0, pc := 2, V := [], callStack := [], H := H0, calls := [] } := by
    rw [step_BIPUSH _ _ ⟨[], c0, 0, [], [], H0, []⟩ rfl]
    simp [case_BIPUSH, fetch, push_int, c0v_push, int2val, bind, Except.bind, pure, Except.pure, c0, A]
  have s2 : step (mul_program a b) nft { S := [c0_value.int A], P := c0, pc := 2, V := [], callStack := [], H := H0, calls := [] } =
      Except.ok { S := [c0_value.int B, c0_value.int A], P := c0, pc := 4, V := [], callStack := [], H := H0, calls := [] } := by
    rw [step_BIPUSH _ _ ⟨[c0_value.int A], c0, 2, [], [], H0, []⟩ rfl]
    simp [case_BIPUSH, fetch, push_int, c0v_push, int2val, bind, Except.bind, pure, Except.pure, c0, B]
  have s3 : step (mul_program a b) nft { S := [c0_value.int B, c0_value.int A], P := c0, pc := 4, V := [], callStack := [], H := H0, calls := [] } =
      Except.ok { S := [], P := c1, pc := 0, V := [c0_value.int A, c0_value.int B], callStack := [fr], H := H0, calls := [] } := by
    rw [step_INVOKESTATIC _ _ ⟨[c0_value.int B, c0_value.int A], c0, 4, [], [], H0, []⟩ rfl]
    exact case_INVOKESTATIC_frame (mul_program a b) ⟨[c0_value.int B, c0_value.int A], c0, 4, [], [], H0, []⟩
      0 1 { num_args := 2, num_vars := 2, code := c1 } [c0_value.int A, c0_value.int B] []
      rfl rfl (by decide) (by decide) rfl rfl (by decide) (by decide) rfl
  have s4 : step (mul_program a b) nft { S := [], P := c1, pc := 0, V := [c0_value.int A, c0_value.int B], callStack := [fr], H := H0, calls := [] } =
      Except.ok { S := [c0_value.int A], P := c1, pc := 2, V := [c0_value.int A, c0_value.int B], callStack := [fr], H := H0, calls := [] } := by
    rw [step_VLOAD _ _ ⟨[], c1, 0, [c0_value.int A, c0_value.int B], [fr], H0, []⟩ rfl]
    simp [case_VLOAD, fetch, c0v_push, bind, Except.bind, pure, Except.pure, c1]
  have s5 : step (mul_program a b) nft { S := [c0_value.int A], P := c1, pc := 2, V := [c0_value.int A, c0_value.int B], callStack := [fr], H := H0, calls := [] } =
      Except.ok { S := [c0_value.int B, c0_value.int A], P := c1, pc := 4, V := [c0_value.int A, c0_value.int B], callStack := [fr], H := H0, calls := [] } := by
    rw [step_VLOAD _ _ ⟨[c0_value.int A], c1, 2, [c0_value.int A, c0_value.int B], [fr], H0, []⟩ rfl]
    simp [case_VLOAD, fetch, c0v_push, bind, Except.bind, pure, Except.pure, c1]
  have s6 : step (mul_program a b) nft { S := [c0_value.int B, c0_value.int A], P := c1, pc := 4, V := [c0_value.int A, c0_value.int B], callStack := [fr], H := H0, calls := [] } =
      Except.ok { S := [c0_value.int (int32 (A * B))], P := c1, pc := 5, V := [c0_value.int A, c0_value.int B], callStack := [fr], H := H0, calls := [] } := by
    rw [step_IMUL _ _ ⟨[c0_value.int B, c0_value.int A], c1, 4, [c0_value.int A, c0_value.int B], [fr], H0, []⟩ rfl]
    simp [case_IMUL, c0v_pop, c0v_push, pop_int, val2int, push_int, int2val, bind, Except.bind, pure, Except.pure]
  have s7 : step (mul_program a b) nft { S := [c0_value.int (int32 (A * B))], P := c1, pc := 5, V := [c0_value.int A, c0_value.int B], callStack := [fr], H := H0, calls := [] } =
      Except.ok { S := [c0_value.int (int32 (A * B))], P := c0, pc := 7, V := [], callStack := [], H := H0, calls := [] } := by
    rw [step_RETURN _ _ ⟨[c0_value.int (int32 (A * B))], c1, 5, [c0_value.int A, c0_value.int B], [fr], H0, []⟩ rfl]
    simp [case_RETURN, c0v_pop, c0v_push, c0v_stack_empty, bind, Except.bind, pure, Except.pure, fr]
  have s8 : step (mul_program a b) nft { S := [c0_value.int (int32 (A * B))], P := c0, pc := 7, V := [], callStack := [], H := H0, calls := [] } =
      Except.error (Halt.returned (int32 (A * B)) { S := [], P := c0, pc := 7, V := [], callStack := [], H := H0, calls := [] }) := by
    rw [step_RETURN _ _ ⟨[c0_value.int (int32 (A * B))], c0, 7, [], [], H0, []⟩ rfl]
    simp [case_RETURN, c0v_pop, c0v_stack_empty, val2int, bind, Except.bind, pure, Except.pure,
      throw, throwThe, MonadExceptOf.throw]
  have hinit : initial_state (mul_program a b) = some { S := [], P := c0, pc := 0, V := [], callStack := [], H := H0, calls := [] } := rfl
  rw [← sext_mul_small a b ha hb]
  simp only [execute, hinit]
  rw [run_ok _ _ _ _ _ s1, run_ok _ _ _ _ _ s2, run_ok _ _ _ _ _ s3, run_ok _ _ _ _ _ s4,
    run_ok _ _ _ _ _ s5, run_ok _ _ _ _ _ s6, run_ok _ _ _ _ _ s7, run_halt _ _ _ _ _ s8]

/-- C15 at `a = 2`, `b = 3`: the run returns 6. -/
theorem call_scenario_witness :
    execute (mul_program 2 3) no_natives 8 =
      some (Halt.returned 6
        { S := [], P := [BIPUSH, 2, BIPUSH, 3, INVOKESTATIC, 0, 1, RETURN], pc := 7, V := [],
          callStack := [], H := [Block.raw []], calls := [] }) :=
  call_scenario no_natives 2 3 (by decide) (by decide) 8 (by decide)

/-- One turn of the loop: from the loop head (address 4) with the counter
`i < n`, eight instructions lead back to the loop head with the counter
`i + 1`. -/
theorem loop_turn (nft : native_table) (n i : Nat) (hn : n ≤ 127) (hi : i < n) :
    step (loop_program n) nft ⟨[], loop_code n, 4, [c0_value.int (i : Int)], [], [Block.raw []], []⟩ = Except.ok ⟨[c0_value.int (i : Int)], loop_code n, 6, [c0_value.int (i : Int)], [], [Block.raw []], []⟩ ∧
    step (loop_program n) nft ⟨[c0_value.int (i : Int)], loop_code n, 6, [c0_value.int (i : Int)], [], [Block.raw []], []⟩ = Except.ok ⟨[c0_value.int (n : Int), c0_value.int (i : Int)], loop_code n, 8, [c0_value.int (i : Int)], [], [Block.raw []], []⟩ ∧
    step (loop_program n) nft ⟨[c0_value.int (n : Int), c0_value.int (i : Int)], loop_code n, 8, [c0_value.int (i : Int)], [], [Block.raw []], []⟩ = Except.ok ⟨[], loop_code n, 14, [c0_value.int (i : Int)], [], [Block.raw []], []⟩ ∧
    step (loop_program n) nft ⟨[], loop_code n, 14, [c0_value.int (i : Int)], [], [Block.raw []], []⟩ = Except.ok ⟨[c0_value.int (i : Int)], loop_code n, 16, [c0_value.int (i : Int)], [], [Block.raw []], []⟩ ∧
    step (loop_program n) nft ⟨[c0_value.int (i : Int)], loop_code n, 16, [c0_value.int (i : Int)], [], [Block.raw []], []⟩ = Except.ok ⟨[c0_value.int 1, c0_value.int (i : Int)], loop_code n, 18, [c0_value.int (i : Int)], [], [Block.raw []], []⟩ ∧
    step (loop_program n) nft ⟨[c0_value.int 1, c0_value.int (i : Int)], loop_code n, 18, [c0_value.int (i : Int)], [], [Block.raw []], []⟩ = Except.ok ⟨[c0_value.int ((i + 1 : Nat) : Int)], loop_code n, 19, [c0_value.int (i : Int)], [], [Block.raw []], []⟩ ∧
    step (loop_program n) nft ⟨[c0_value.int ((i + 1 : Nat) : Int)], loop_code n, 19, [c0_value.int (i : Int)], [], [Block.raw []], []⟩ = Except.ok ⟨[], loop_code n, 21, [c0_value.int ((i + 1 : Nat) : Int)], [], [Block.raw []], []⟩ ∧
    step (loop_program n) nft ⟨[], loop_code n, 21, [c0_value.int ((i + 1 : Nat) : Int)], [], [Block.raw []], []⟩ = Except.ok ⟨[], loop_code n, 4, [c0_value.int ((i + 1 : Nat) : Int)], [], [Block.raw []], []⟩ := by
  refine ⟨?_, ?_, ?_, ?_, ?_, ?_, ?_, ?_⟩
  · rw [step_VLOAD _ _ ⟨[], loop_code n, 4, [c0_value.int (i : Int)], [], [Block.raw []], []⟩ rfl]
    simp [case_VLOAD, fetch, c0v_push, bind, Except.bind, pure, Except.pure, loop_code]
  · rw [step_BIPUSH _ _ ⟨[c0_value.int (i : Int)], loop_code n, 6, [c0_value.int (i : Int)], [], [Block.raw []], []⟩ rfl]
    simp [case_BIPUSH, fetch, push_int, c0v_push, int2val, bind, Except.bind, pure,
      Except.pure, loop_code, int8_small n hn]
  · exact (branch_IF_ICMPLT (loop_program n) nft ⟨[c0_value.int (n : Int), c0_value.int (i : Int)], loop_code n, 8, [c0_value.int (i : Int)], [], [Block.raw []], []⟩ 0 6 6 rfl rfl (by decide) (by decide)
      (by decide) i n [] rfl rfl).1 (by exact_mod_cast hi) 14 (by norm_num) (by decide)
  · rw [step_VLOAD _ _ ⟨[], loop_code n, 14, [c0_value.int (i : Int)], [], [Block.raw []], []⟩ rfl]
    simp [case_VLOAD, fetch, c0v_push, bind, Except.bind, pure, Except.pure, loop_code]
  · rw [step_BIPUSH _ _ ⟨[c0_value.int (i : Int)], loop_code n, 16, [c0_value.int (i : Int)], [], [Block.raw []], []⟩ rfl]
    simp [case_BIPUSH, fetch, push_int, c0v_push, int2val, bind, Except.bind, pure,
      Except.pure, loop_code, (by decide : int32 (int8 1) = 1)]
  · rw [step_IADD _ _ ⟨[c0_value.int 1, c0_value.int (i : Int)], loop_code n, 18, [c0_value.int (i : Int)], [], [Block.raw []], []⟩ rfl]
    simp [case_IADD, c0v_pop, c0v_push, pop_int, val2int, push_int, int2val, bind,
      Except.bind, pure, Except.pure, int32_small ((i : Int) + 1) (by omega)]
  · rw [step_VSTORE _ _ ⟨[c0_value.int ((i + 1 : Nat) : Int)], loop_code n, 19, [c0_value.int (i : Int)], [], [Block.raw []], []⟩ rfl]
    simp [case_VSTORE, fetch, c0v_pop, bind, Except.bind, pure, Except.pure, loop_code]
  · exact branch_GOTO (loop_program n) nft ⟨[], loop_code n, 21, [c0_value.int ((i + 1 : Nat) : Int)], [], [Block.raw []], []⟩ 0xFF 0xEF (-17) rfl rfl (by decide)
      (by decide) (by decide) rfl 4 (by norm_num) (by decide)

/-- Leaving the loop: from the loop head with the counter equal to `n`, five
instructions lead to the RETURN, which ends `execute` with the value `n`. -/
theorem loop_exit (nft : native_table) (n : Nat) (hn : n ≤ 127) :
    step (loop_program n) nft ⟨[], loop_code n, 4, [c0_value.int (n : Int)], [], [Block.raw []], []⟩ = Except.ok ⟨[c0_value.int (n : Int)], loop_code n, 6, [c0_value.int (n : Int)], [], [Block.raw []], []⟩ ∧
    step (loop_program n) nft ⟨[c0_value.int (n : Int)], loop_code n, 6, [c0_value.int (n : Int)], [], [Block.raw []], []⟩ = Except.ok ⟨[c0_value.int (n : Int), c0_value.int (n : Int)], loop_code n, 8, [c0_value.int (n : Int)], [], [Block.raw []], []⟩ ∧
    step (loop_program n) nft ⟨[c0_value.int (n : Int), c0_value.int (n : Int)], loop_code n, 8, [c0_value.int (n : Int)], [], [Block.raw []], []⟩ = Except.ok ⟨[], loop_code n, 11, [c0_value.int (n : Int)], [], [Block.raw []], []⟩ ∧
    step (loop_program n) nft ⟨[], loop_code n, 11, [c0_value.int (n : Int)], [], [Block.raw []], []⟩ = Except.ok ⟨[], loop_code n, 24, [c0_value.int (n : Int)], [], [Block.raw []], []⟩ ∧
    step (loop_program n) nft ⟨[], loop_code n, 24, [c0_value.int (n : Int)], [], [Block.raw []], []⟩ = Except.ok ⟨[c0_value.int (n : Int)], loop_code n, 26, [c0_value.int (n : Int)], [], [Block.raw []], []⟩ ∧
    step (loop_program n) nft ⟨[c0_value.int (n : Int)], loop_code n, 26, [c0_value.int (n : Int)], [], [Block.raw []], []⟩ = Except.error (Halt.returned n ⟨[], loop_code n, 26, [c0_value.int (n : Int)], [], [Block.raw []], []⟩) := by
  refine ⟨?_, ?_, ?_, ?_, ?_, ?_⟩
  · rw [step_VLOAD _ _ ⟨[], loop_code n, 4, [c0_value.int (n : Int)], [], [Block.raw []], []⟩ rfl]
    simp [case_VLOAD, fetch, c0v_push, bind, Except.bind, pure, Except.pure, loop_code]
  · rw [step_BIPUSH _ _ ⟨[c0_value.int (n : Int)], loop_code n, 6, [c0_value.int (n : Int)], [], [Block.raw []], []⟩ rfl]
    simp [case_BIPUSH, fetch, push_int, c0v_push, int2val, bind, Except.bind, pure,
      Except.pure, loop_code, int8_small n hn]
  · exact (branch_IF_ICMPLT (loop_program n) nft ⟨[c0_value.int (n : Int), c0_value.int (n : Int)], loop_code n, 8, [c0_value.int (n : Int)], [], [Block.raw []], []⟩ 0 6 6 rfl rfl (by decide) (by decide)
      (by decide) n n [] rfl rfl).2 (lt_irrefl _)
  · exact branch_GOTO (loop_program n) nft ⟨[], loop_code n, 11, [c0_value.int (n : Int)], [], [Block.raw []], []⟩ 0 13 13 rfl rfl (by decide)
      (by decide) (by decide) rfl 24 (by norm_num) (by decide)
  · rw [step_VLOAD _ _ ⟨[], loop_code n, 24, [c0_value.int (n : Int)], [], [Block.raw []], []⟩ rfl]
    simp [case_VLOAD, fetch, c0v_push, bind, Except.bind, pure, Except.pure, loop_code]
  · rw [step_RETURN _ _ ⟨[c0_value.int (n : Int)], loop_code n, 26, [c0_value.int (n : Int)], [], [Block.raw []], []⟩ rfl]
    simp [case_RETURN, c0v_pop, c0v_stack_empty, val2int, bind, Except.bind, pure,
      Except.pure, throw, throwThe, MonadExceptOf.throw]

/-- Entering the loop: the first two instructions set the counter to 0 and
reach the loop head. -/
theorem loop_enter (nft : native_table) (n : Nat) :
    initial_state (loop_program n) = some ⟨[], loop_code n, 0, [c0_value.int 0], [], [Block.raw []], []⟩ ∧
    step (loop_program n) nft ⟨[], loop_code n, 0, [c0_value.int 0], [], [Block.raw []], []⟩ = Except.ok ⟨[c0_value.int 0], loop_code n, 2, [c0_value.int 0], [], [Block.raw []], []⟩ ∧
    step (loop_program n) nft ⟨[c0_value.int 0], loop_code n, 2, [c0_value.int 0], [], [Block.raw []], []⟩ = Except.ok ⟨[], loop_code n, 4, [c0_value.int ((0 : Nat) : Int)], [], [Block.raw []], []⟩ := by
  refine ⟨rfl, ?_, ?_⟩
  · rw [step_BIPUSH _ _ ⟨[], loop_code n, 0, [c0_value.int 0], [], [Block.raw []], []⟩ rfl]
    simp [case_BIPUSH, fetch, push_int, c0v_push, int2val, bind, Except.bind, pure,
      Except.pure, loop_code, (by decide : int32 (int8 0) = 0)]
  · rw [step_VSTORE _ _ ⟨[c0_value.int 0], loop_code n, 2, [c0_value.int 0], [], [Block.raw []], []⟩ rfl]
    simp [case_VSTORE, fetch, c0v_pop, bind, Except.bind, pure, Except.pure, loop_code]

/-- From the loop head with the counter `i` and `d = n - i` turns to go, the
run ends after `8 * d + 6` instructions with the value `n`, and the backward
GOTO at address 21 runs `d` times. -/
theorem loop_from (nft : native_table) (n : Nat) (hn : n ≤ 127) :
    ∀ (d i : Nat), i + d = n → ∀ k : Nat,
      run (loop_program n) nft (8 * d + 6 + k)
          ⟨[], loop_code n, 4, [c0_value.int (i : Int)], [], [Block.raw []], []⟩ =
        some (Halt.returned n ⟨[], loop_code n, 26, [c0_value.int (n : Int)], [], [Block.raw []], []⟩) ∧
      visits (loop_program n) nft 21 (8 * d + 6 + k)
          ⟨[], loop_code n, 4, [c0_value.int (i : Int)], [], [Block.raw []], []⟩ = d := by
  intro d
  induction d with
  | zero =>
    intro i hi k
    have hin : i = n := by omega
    subst hin
    obtain ⟨e0, e1, e2, e3, e4, e5⟩ := loop_exit nft i hn
    have hf : 8 * 0 + 6 + k = k + 1 + 1 + 1 + 1 + 1 + 1 := by omega
    rw [hf]
    constructor
    · rw [run_ok _ _ _ _ _ e0, run_ok _ _ _ _ _ e1, run_ok _ _ _ _ _ e2, run_ok _ _ _ _ _ e3,
        run_ok _ _ _ _ _ e4, run_halt _ _ _ _ _ e5]
    · rw [visits_ok _ _ _ _ _ _ e0, visits_ok _ _ _ _ _ _ e1, visits_ok _ _ _ _ _ _ e2,
        visits_ok _ _ _ _ _ _ e3, visits_ok _ _ _ _ _ _ e4, visits_halt _ _ _ _ _ _ e5]
      simp
  | succ d ih =>
    intro i hi k
    have hlt : i < n := by omega
    obtain ⟨t0, t1, t2, t3, t4, t5, t6, t7⟩ := loop_turn nft n i hn hlt
    obtain ⟨r, v⟩ := ih (i + 1) (by omega) k
    have hf : 8 * (d + 1) + 6 + k = (8 * d + 6 + k) + 1 + 1 + 1 + 1 + 1 + 1 + 1 + 1 := by omega
    rw [hf]
    constructor
    · rw [run_ok _ _ _ _ _ t0, run_ok _ _ _ _ _ t1, run_ok _ _ _ _ _ t2, run_ok _ _ _ _ _ t3,
        run_ok _ _ _ _ _ t4, run_ok _ _ _ _ _ t5, run_ok _ _ _ _ _ t6, run_ok _ _ _ _ _ t7]
      exact r
    · rw [visits_ok _ _ _ _ _ _ t0, visits_ok _ _ _ _ _ _ t1, visits_ok _ _ _ _ _ _ t2,
        visits_ok _ _ _ _ _ _ t3, visits_ok _ _ _ _ _ _ t4, visits_ok _ _ _ _ _ _ t5,
        visits_ok _ _ _ _ _ _ t6, visits_ok _ _ _ _ _ _ t7, v]
      simp
      omega

/-- C16: for every bound `0 ≤ n ≤ 127`, `execute` on the bounded-loop program
ends without error and returns `n`, for every fuel of at least `8 * n + 8`
instructions; in such a run the backward GOTO at address 21, the last
instruction of the loop body, runs exactly `n` times. -/
theorem loop_scenario (nft : native_table) (n : Nat) (hn : n ≤ 127) (fuel : Nat)
    (hfuel : 8 * n + 8 ≤ fuel) :
    execute (loop_program n) nft fuel = some (Halt.returned n ⟨[], loop_code n, 26, [c0_value.int (n : Int)], [], [Block.raw []], []⟩) ∧
    execute_visits (loop_program n) nft 21 fuel = n := by
  obtain ⟨k, rfl⟩ : ∃ k, fuel = 8 * n + 6 + k + 1 + 1 := ⟨fuel - (8 * n + 8), by omega⟩
  obtain ⟨q0, q1, q2⟩ := loop_enter nft n
  obtain ⟨r, v⟩ := loop_from nft n hn n 0 (by omega) k
  simp only [execute, execute_visits, q0]
  constructor
  · rw [run_ok _ _ _ _ _ q1, run_ok _ _ _ _ _ q2]
    exact r
  · rw [visits_ok _ _ _ _ _ _ q1, visits_ok _ _ _ _ _ _ q2, v]
    simp

/-- C16 at `n = 3`: the run returns 3 and the backward GOTO runs 3 times. -/
theorem loop_scenario_witness :
    execute (loop_program 3) no_natives 32 =
      some (Halt.returned 3
        { S := [], P := loop_code 3, pc := 26, V := [c0_value.int 3], callStack := [],
          H := [Block.raw []], calls := [] }) ∧
    execute_visits (loop_program 3) no_natives 21 32 = 3 :=
  loop_scenario no_natives 3 (by decide) 32 (by decide)

/-! ## INVOKENATIVE -/

/-- What INVOKENATIVE does when the declared argument count `k` is at most
127: with the values `a0 ... a(k-1)` on top of the operand stack (`a(k-1)`
topmost) it calls the native function at the entry's table index once, with
the buffer `[a0, ..., a(k-1)]`, replaces the `k` values by the result and
moves `pc` three bytes on. -/
theorem case_INVOKENATIVE_small (bc0 : bc0_file) (nft : native_table) (st : State)
    (hi lo : Nat) (e : native_info) (native : native_fn) (args rest : List c0_value)
    (hhi : st.P[st.pc + 1]? = some hi) (hlo : st.P[st.pc + 2]? = some lo)
    (hhi256 : hi < 256) (hlo256 : lo < 256)
    (he : bc0.native_pool[hi * 256 + lo]? = some e)
    (hk : args.length = e.num_args) (hk127 : e.num_args ≤ 127)
    (hf : nft e.function_table_index = some native)
    (hS : st.S = args.reverse ++ rest) :
    case_INVOKENATIVE bc0 nft st =
      Except.ok { st with
        pc := st.pc + 3, S := (native args st.H).1 :: rest, H := (native args st.H).2,
        calls := (e.function_table_index, args) :: st.calls } := by
  have h1 : int8 (e.num_args : Int) = e.num_args := by
    unfold int8 toSigned
    norm_num
    omega
  have hp := pop_args_spec e.num_args rest args.reverse
    (List.replicate e.num_args zero_value) (by simp [hk]) (by simp [hk])
  simp only [List.length_reverse, hk, List.reverse_reverse, List.drop_replicate,
    Nat.sub_self, List.replicate_zero, List.append_nil] at hp
  simp [case_INVOKENATIVE, fetch, hhi, hlo, uint16_bytes2 hi lo hhi256 hlo256, he, h1, hf,
    hS, hp, c0v_push, bind, Except.bind, pure, Except.pure]

/-- C17, the code at the failing input: for a native-pool entry that declares
`k = 128` arguments, on an operand stack of 128 values, the argument count is
read into an `int8_t` and becomes -128: the argument buffer cannot be
allocated, `execute` stops, no value is popped and the native function is not
called. -/
theorem invokenative_count_128_aborts :
    step (native_program 128) count_natives
        (sample_state [INVOKENATIVE, 0, 0, RETURN] (List.replicate 128 (c0_value.int 1))) =
      Except.error (Halt.aborted ErrorKind.AllocFailed (Msg.lit "allocation failed")
        { sample_state [INVOKENATIVE, 0, 0, RETURN] (List.replicate 128 (c0_value.int 1)) with
          pc := 1 }) ∧
    step (native_program 2) count_natives
        (sample_state [INVOKENATIVE, 0, 0, RETURN] [c0_value.int 8, c0_value.int 7]) =
      Except.ok
        { S := [c0_value.int 2], P := [INVOKENATIVE, 0, 0, RETURN], pc := 3, V := [],
          callStack := [], H := [],
          calls := [(0, [c0_value.int 7, c0_value.int 8])] } :=
  ⟨rfl, rfl⟩

/-- The reference `NEW count` pushes points to the start of a fresh buffer of
`count` zero bytes, so for `count ≥ 4` it is a reference IMSTORE and IMLOAD
can be used on. -/
theorem step_NEW_buffer (bc0 : bc0_file) (nft : native_table) (st : State) (count : Nat)
    (hop : st.P[st.pc]? = some NEW) (hc : st.P[st.pc + 1]? = some count) :
    step bc0 nft st =
      Except.ok { st with
        pc := st.pc + 2, S := c0_value.ptr (Ptr.addr st.H.length 0) :: st.S,
        H := st.H ++ [Block.raw (List.replicate count (Cell.byte 0))] } ∧
    (st.H ++ [Block.raw (List.replicate count (Cell.byte 0))])[st.H.length]? =
      some (Block.raw (List.replicate count (Cell.byte 0))) := by
  constructor
  · rw [step_NEW bc0 nft st hop]
    simp [case_NEW, fetch, hc, xcalloc, push_ptr, c0v_push, ptr2val, bind, Except.bind, pure,
      Except.pure]
  · rw [List.getElem?_append_right (Nat.le_refl _)]
    simp

end C0VM
